import Mathlib

/-!
# libjodycode: date-time string to UNIX epoch conversion

A shallow embedding of `jc_strtoepoch` and of the two NT epoch conversions
(src/jc_time.c), of the error constants they return (src/libjodycode.h) and of
the error table with its three lookup functions (src/error.c), followed by
theorems about the embedding.

Modelling conventions.

* A C `char` is an `Int` (its value after integer promotion), so the same
  definitions cover platforms where `char` is signed and where it is unsigned.
* A C string is the list of its bytes before the terminator; its storage is
  those bytes followed by one NUL byte.  A pointer into the string is an index
  into that storage, and a read outside the storage is reported (`Stop.oob`)
  instead of being given a value.
* `int` and `time_t` values are `Int`; every `int` the function computes lies
  between -900 and 2999, so no machine arithmetic can wrap.
* `mktime` belongs to the host C library.  It is a parameter of the embedding,
  and the record it is called with is kept in the result, so that "what is
  handed to `mktime`" and "`mktime` is not called" are statements about values.
* `unlikely(x)` of likely_unlikely.h is a branch hint and stands for `x`.
* The build switch `STRTOEPOCH_USE_SHIFT_MULTIPLY` is the parameter `shift`;
  the theorems hold for both builds.
* A `uint64_t` is a `Nat` below `2 ^ 64`, and its arithmetic is taken modulo
  `2 ^ 64`.  A pointer to one is the value it points to.
* An access to `jc_error_list` outside its 7 entries is reported (`none`)
  instead of being given a value.
-/

namespace Jodycode

/-! ## Constants of libjodycode.h -/

/-- The constant `#define JC_ENULL 1`. -/
def JC_ENULL : Int := 1

/-- The constant `#define JC_EDATETIME 11`. -/
def JC_EDATETIME : Int := 11

/-! ## The broken-down time record -/

/-- The members of `struct tm` that ISO C names, all of type `int`. -/
structure Tm where
  tm_sec : Int
  tm_min : Int
  tm_hour : Int
  tm_mday : Int
  tm_mon : Int
  tm_year : Int
  tm_wday : Int
  tm_yday : Int
  tm_isdst : Int
  deriving DecidableEq

/-- The record after `memset(&tm, 0, sizeof(struct tm))`. -/
def Tm.zeroed : Tm :=
  { tm_sec := 0, tm_min := 0, tm_hour := 0, tm_mday := 0, tm_mon := 0,
    tm_year := 0, tm_wday := 0, tm_yday := 0, tm_isdst := 0 }

/-! ## Strings and pointers -/

/-- The bytes a C string occupies: its characters, then the terminator. -/
def storage (s : List Int) : List Int := s ++ [0]

/-- The characters of an ASCII literal, for writing inputs down. -/
def str (lit : String) : List Int := lit.toList.map (fun c => (c.toNat : Int))

/-! ## Ways of leaving the function before `mktime` is reached -/

/-- An exit from `jc_strtoepoch` ahead of the `skip_time` label. -/
inductive Stop where
  /-- A read outside the storage of the input string. -/
  | oob : Stop
  /-- The statement `return code;`. -/
  | ret (code : Int) : Stop
  deriving DecidableEq

/-- The value of `*p` for `p = datetime + k`; the exit `Stop.oob` when `p` points
outside the storage of the string. -/
def deref (s : List Int) (k : Nat) : Except Stop Int :=
  match (storage s)[k]? with
  | some c => Except.ok c
  | none => Except.error Stop.oob

/-! ## The macros of jc_time.c -/

/-- The macro `#define REQ_NUM(a) { if (a < '0' || a > '9') return JC_EDATETIME; }`. -/
def REQ_NUM (a : Int) : Except Stop Unit :=
  if a < 48 ∨ a > 57 then throw (Stop.ret JC_EDATETIME) else pure ()

/-- The macro `#define ATONUM(a,b) (a = b - '0')`: the value assigned to `a`. -/
def ATONUM (b : Int) : Int := b - 48

/-- The C expression `a << n` for an `int` `a` that is not negative. -/
def shl (a : Int) (n : Nat) : Int := ((a.toNat <<< n : Nat) : Int)

/-- The macro `MUL100(a)`: `((a << 6) + (a << 5) + (a << 2))` when the build defines
`STRTOEPOCH_USE_SHIFT_MULTIPLY` (`shift = true`), `(a * 100)` otherwise. -/
def MUL100 (shift : Bool) (a : Int) : Int :=
  if shift then shl a 6 + shl a 5 + shl a 2 else a * 100

/-- The macro `MUL10(a)`: `((a << 3) + a + a)` when the build defines
`STRTOEPOCH_USE_SHIFT_MULTIPLY` (`shift = true`), `(a * 10)` otherwise. -/
def MUL10 (shift : Bool) (a : Int) : Int :=
  if shift then shl a 3 + a + a else a * 10

/-! ## jc_strtoepoch -/

/-- The body of `jc_strtoepoch` from its first statement up to and including
`tm.tm_isdst = -1;`: either an early exit, or the record that the next
statement passes to `mktime`.  `datetime = none` is the NULL pointer. -/
def jc_strtoepoch_tm (shift : Bool) (datetime : Option (List Int)) : Except Stop Tm := do
  let s ← match datetime with
    | none => throw (Stop.ret JC_ENULL)
    | some s => pure s
  let mut p : Nat := 0
  let c ← deref s p
  if c = 0 then throw (Stop.ret JC_ENULL)
  let mut tm : Tm := Tm.zeroed
  -- Process year
  tm := { tm with tm_year := 1000 }
  let c ← deref s p
  REQ_NUM c
  if c = 50 then tm := { tm with tm_year := 2000 }
  p := p + 1
  let c ← deref s p
  REQ_NUM c
  tm := { tm with tm_year := tm.tm_year + MUL100 shift (ATONUM c) }
  p := p + 1
  let c ← deref s p
  REQ_NUM c
  tm := { tm with tm_year := tm.tm_year + MUL10 shift (ATONUM c) }
  p := p + 1
  let c ← deref s p
  REQ_NUM c
  tm := { tm with tm_year := tm.tm_year + ATONUM c }
  p := p + 1
  tm := { tm with tm_year := tm.tm_year - 1900 }
  let c ← deref s p
  if c ≠ 45 then throw (Stop.ret JC_EDATETIME)
  p := p + 1
  -- Process month (0-11, not 1-12)
  let c ← deref s p
  REQ_NUM c
  tm := { tm with tm_mon := MUL10 shift (ATONUM c) }
  p := p + 1
  let c ← deref s p
  REQ_NUM c
  tm := { tm with tm_mon := tm.tm_mon + (ATONUM c - 1) }
  p := p + 1
  let c ← deref s p
  if c ≠ 45 then throw (Stop.ret JC_EDATETIME)
  p := p + 1
  -- Process day
  let c ← deref s p
  REQ_NUM c
  tm := { tm with tm_mday := MUL10 shift (ATONUM c) }
  p := p + 1
  let c ← deref s p
  REQ_NUM c
  tm := { tm with tm_mday := tm.tm_mday + ATONUM c }
  p := p + 1
  -- If YYYY-MM-DD is specified only, skip the time part
  let c ← deref s p
  if c ≠ 0 then
    if c ≠ 32 then throw (Stop.ret JC_EDATETIME) else p := p + 1
    -- Process hours
    let c ← deref s p
    REQ_NUM c
    tm := { tm with tm_hour := MUL10 shift (ATONUM c) }
    p := p + 1
    let c ← deref s p
    REQ_NUM c
    tm := { tm with tm_hour := tm.tm_hour + ATONUM c }
    p := p + 1
    let c ← deref s p
    if c ≠ 58 then throw (Stop.ret JC_EDATETIME)
    p := p + 1
    -- Process minutes
    let c ← deref s p
    REQ_NUM c
    tm := { tm with tm_min := MUL10 shift (ATONUM c) }
    p := p + 1
    let c ← deref s p
    REQ_NUM c
    tm := { tm with tm_min := tm.tm_min + ATONUM c }
    p := p + 1
    let c ← deref s p
    if c ≠ 58 then throw (Stop.ret JC_EDATETIME)
    p := p + 1
    -- Process seconds
    let c ← deref s p
    REQ_NUM c
    tm := { tm with tm_sec := MUL10 shift (ATONUM c) }
    p := p + 1
    let c ← deref s p
    REQ_NUM c
    tm := { tm with tm_sec := tm.tm_sec + ATONUM c }
    p := p + 1
    -- Junk after datetime string should cause an error
    let c ← deref s p
    if c ≠ 0 then throw (Stop.ret JC_EDATETIME)
  -- skip_time:
  tm := { tm with tm_isdst := -1 }
  return tm

/-- The statements of `jc_strtoepoch` for an argument that is not NULL, once more,
with every read `*p` made through `rd` (`rd k` is the read at `datetime + k`), so
that one can say which indices are read. -/
def jc_strtoepoch_reading (shift : Bool) (rd : Nat → Except Stop Int) : Except Stop Tm := do
  let mut p : Nat := 0
  let c ← rd p
  if c = 0 then throw (Stop.ret JC_ENULL)
  let mut tm : Tm := Tm.zeroed
  -- Process year
  tm := { tm with tm_year := 1000 }
  let c ← rd p
  REQ_NUM c
  if c = 50 then tm := { tm with tm_year := 2000 }
  p := p + 1
  let c ← rd p
  REQ_NUM c
  tm := { tm with tm_year := tm.tm_year + MUL100 shift (ATONUM c) }
  p := p + 1
  let c ← rd p
  REQ_NUM c
  tm := { tm with tm_year := tm.tm_year + MUL10 shift (ATONUM c) }
  p := p + 1
  let c ← rd p
  REQ_NUM c
  tm := { tm with tm_year := tm.tm_year + ATONUM c }
  p := p + 1
  tm := { tm with tm_year := tm.tm_year - 1900 }
  let c ← rd p
  if c ≠ 45 then throw (Stop.ret JC_EDATETIME)
  p := p + 1
  -- Process month (0-11, not 1-12)
  let c ← rd p
  REQ_NUM c
  tm := { tm with tm_mon := MUL10 shift (ATONUM c) }
  p := p + 1
  let c ← rd p
  REQ_NUM c
  tm := { tm with tm_mon := tm.tm_mon + (ATONUM c - 1) }
  p := p + 1
  let c ← rd p
  if c ≠ 45 then throw (Stop.ret JC_EDATETIME)
  p := p + 1
  -- Process day
  let c ← rd p
  REQ_NUM c
  tm := { tm with tm_mday := MUL10 shift (ATONUM c) }
  p := p + 1
  let c ← rd p
  REQ_NUM c
  tm := { tm with tm_mday := tm.tm_mday + ATONUM c }
  p := p + 1
  -- If YYYY-MM-DD is specified only, skip the time part
  let c ← rd p
  if c ≠ 0 then
    if c ≠ 32 then throw (Stop.ret JC_EDATETIME) else p := p + 1
    -- Process hours
    let c ← rd p
    REQ_NUM c
    tm := { tm with tm_hour := MUL10 shift (ATONUM c) }
    p := p + 1
    let c ← rd p
    REQ_NUM c
    tm := { tm with tm_hour := tm.tm_hour + ATONUM c }
    p := p + 1
    let c ← rd p
    if c ≠ 58 then throw (Stop.ret JC_EDATETIME)
    p := p + 1
    -- Process minutes
    let c ← rd p
    REQ_NUM c
    tm := { tm with tm_min := MUL10 shift (ATONUM c) }
    p := p + 1
    let c ← rd p
    REQ_NUM c
    tm := { tm with tm_min := tm.tm_min + ATONUM c }
    p := p + 1
    let c ← rd p
    if c ≠ 58 then throw (Stop.ret JC_EDATETIME)
    p := p + 1
    -- Process seconds
    let c ← rd p
    REQ_NUM c
    tm := { tm with tm_sec := MUL10 shift (ATONUM c) }
    p := p + 1
    let c ← rd p
    REQ_NUM c
    tm := { tm with tm_sec := tm.tm_sec + ATONUM c }
    p := p + 1
    -- Junk after datetime string should cause an error
    let c ← rd p
    if c ≠ 0 then throw (Stop.ret JC_EDATETIME)
  -- skip_time:
  tm := { tm with tm_isdst := -1 }
  return tm

/-- What one call of `jc_strtoepoch` does: the `time_t` it returns and the
arguments of the `mktime` calls it made, in order. -/
structure Run where
  value : Int
  calls : List Tm
  deriving DecidableEq

/-- One call of `jc_strtoepoch`, with the host function `mktime` as a parameter:
`secs = mktime(&tm); return secs;` after the body, or the early `return`.
`none` stands for a read outside the storage of the input. -/
def jc_strtoepoch_run (shift : Bool) (mktime : Tm → Int) (datetime : Option (List Int)) :
    Option Run :=
  match jc_strtoepoch_tm shift datetime with
  | Except.error Stop.oob => none
  | Except.error (Stop.ret code) => some { value := code, calls := [] }
  | Except.ok tm => some { value := mktime tm, calls := [tm] }

/-- The value `jc_strtoepoch(datetime)` returns. -/
def jc_strtoepoch (shift : Bool) (mktime : Tm → Int) (datetime : Option (List Int)) :
    Option Int :=
  (jc_strtoepoch_run shift mktime datetime).map Run.value

/-! ## The two accepted shapes, stated on the characters -/

/-- A character between `'0'` and `'9'`. -/
def isdigit (c : Int) : Bool := decide (48 ≤ c) && decide (c ≤ 57)

/-- The characters of a C string: none of them is the terminator. -/
def NulFree (s : List Int) : Prop := ∀ c ∈ s, c ≠ 0

instance (s : List Int) : Decidable (NulFree s) :=
  inferInstanceAs (Decidable (∀ c ∈ s, c ≠ 0))

/-- The shape `DDDD-DD-DD`, with nothing after the day. -/
def dateShape : List Int → Bool
  | [y1, y2, y3, y4, a, m1, m2, b, d1, d2] =>
      isdigit y1 && isdigit y2 && isdigit y3 && isdigit y4 && a == 45 &&
      isdigit m1 && isdigit m2 && b == 45 && isdigit d1 && isdigit d2
  | _ => false

/-- The shape `DDDD-DD-DD DD:DD:DD`, with nothing after the seconds. -/
def dateTimeShape : List Int → Bool
  | [y1, y2, y3, y4, a, m1, m2, b, d1, d2, c, h1, h2, e, n1, n2, f, s1, s2] =>
      isdigit y1 && isdigit y2 && isdigit y3 && isdigit y4 && a == 45 &&
      isdigit m1 && isdigit m2 && b == 45 && isdigit d1 && isdigit d2 && c == 32 &&
      isdigit h1 && isdigit h2 && e == 58 && isdigit n1 && isdigit n2 && f == 58 &&
      isdigit s1 && isdigit s2
  | _ => false

/-- The decimal value of the character at index `k` of `s`. -/
def digit (s : List Int) (k : Nat) : Int := s.getD k 0 - 48

/-! ## The NT epoch conversions of jc_time.c (built when `ON_WINDOWS` is defined) -/

/-- Modelled from the spec: `time_t` is a signed 64-bit integer (the spec gives
both conversions the result type `i64`; the typedef itself belongs to the host's
`<time.h>`).  The value of the cast `(time_t)n` of a `uint64_t` `n`. -/
def to_time_t (n : Nat) : Int :=
  if n % 2 ^ 64 < 2 ^ 63 then ((n % 2 ^ 64 : Nat) : Int) else ((n % 2 ^ 64 : Nat) : Int) - 2 ^ 64

/-- The `uint64_t` object that holds the bits of a `time_t` value. -/
def of_time_t (x : Int) : Nat := (x % 2 ^ 64).toNat

/-- The function `jc_nttime_to_unixtime`; `timestamp` is the `uint64_t` that the
argument points to. -/
def jc_nttime_to_unixtime (timestamp : Nat) : Int :=
  let newstamp : Nat := timestamp % 2 ^ 64
  let newstamp : Nat := newstamp / 10000000
  if newstamp ≤ 11644473600 then 0
  else
    let newstamp : Nat := (newstamp + (2 ^ 64 - 11644473600)) % 2 ^ 64
    to_time_t newstamp

/-- The function `jc_unixtime_to_nttime`; `timestamp` is the `uint64_t` that the
argument points to. -/
def jc_unixtime_to_nttime (timestamp : Nat) : Int :=
  let newstamp : Nat := timestamp % 2 ^ 64
  let newstamp : Nat := (newstamp + 11644473600) % 2 ^ 64
  let newstamp : Nat := (newstamp * 10000000) % 2 ^ 64
  if newstamp ≤ 11644473600 then 0
  else to_time_t newstamp

/-! ## error.c -/

/-- The record `struct jc_error`; `none` is the NULL pointer. -/
structure jc_error where
  name : Option String
  desc : Option String
  deriving DecidableEq

/-- The constant `#define JC_ERRCNT 6`. -/
def JC_ERRCNT : Nat := 6

/-- The variable `static const int errcnt = JC_ERRCNT;`. -/
def errcnt : Int := JC_ERRCNT

/-- The array `jc_error_list[JC_ERRCNT + 1]`. -/
def jc_error_list : List jc_error :=
  [ ⟨some "no_error", some "success"⟩,
    ⟨some "null_param", some "get_relative_name has NULL parameter"⟩,
    ⟨some "getcwd", some "couldn't get the current directory"⟩,
    ⟨some "cdotdot", some "jc_collapse_dotdot() call failed"⟩,
    ⟨some "grn_dir_end", some "get_relative_name() result has directory at end"⟩,
    ⟨some "bad_errnum", some "invalid error number"⟩,
    ⟨none, none⟩ ]

/-- The element `jc_error_list[i]`; `none` when `i` is not an index of the array. -/
def jc_error_at (i : Int) : Option jc_error :=
  if i < 0 then none else jc_error_list[i.toNat]?

/-- The value of `-x` in 32-bit `int` arithmetic. -/
def neg_int (x : Int) : Int := (-x + 2 ^ 31) % 2 ^ 32 - 2 ^ 31

/-- The function `jc_get_errname`.  The outer `none` is a read outside
`jc_error_list`; `some none` is the NULL pointer. -/
def jc_get_errname (errnum : Int) : Option (Option String) :=
  if errnum > errcnt then some none
  else
    let errnum := if errnum < 0 then neg_int errnum else errnum
    (jc_error_at errnum).map jc_error.name

/-- The function `jc_get_errdesc`, with the results of `jc_get_errname`. -/
def jc_get_errdesc (errnum : Int) : Option (Option String) :=
  if errnum > errcnt then some none
  else
    let errnum := if errnum < 0 then neg_int errnum else errnum
    (jc_error_at errnum).map jc_error.desc

/-- What one call of `jc_print_error` does: the `int` it returns and the argument
pairs (description, name) it passed to
`fprintf(stderr, "error: %s (%s)\n", ...)`. -/
structure Printed where
  value : Int
  stderr : List (Option String × Option String)
  deriving DecidableEq

/-- The function `jc_print_error`; `none` is a read outside `jc_error_list`. -/
def jc_print_error (errnum : Int) : Option Printed :=
  if errnum > errcnt then some { value := -5, stderr := [] }
  else
    let errnum := if errnum < 0 then neg_int errnum else errnum
    match jc_error_at errnum with
    | some e => some { value := 0, stderr := [(e.desc, e.name)] }
    | none => none

/-! ## A host normaliser -/

/-- Modelled from the spec: part of the host normaliser below, the days from
1970-01-01 to the day `d` of month `m` (1 to 12) of year `y` in the proleptic
Gregorian calendar. -/
def days_from_civil (y m d : Int) : Int :=
  let y := if m ≤ 2 then y - 1 else y
  let era := y / 400
  let yoe := y - era * 400
  let doy := (153 * (if m > 2 then m - 3 else m + 9) + 2) / 5 + d - 1
  let doe := yoe * 365 + yoe / 4 - yoe / 100 + doy
  era * 146097 + doe - 719468

/-- Modelled from the spec: the host normaliser `mktime` as proleptic Gregorian
calendar arithmetic for a zone that is always `gmtoff` seconds east of UTC.  Fields
outside their range roll into the next higher unit; `tm_isdst` has no effect. -/
def mktime_fixed (gmtoff : Int) (tm : Tm) : Int :=
  let year := tm.tm_year + 1900 + tm.tm_mon / 12
  let month := tm.tm_mon % 12 + 1
  (days_from_civil year month 1 + (tm.tm_mday - 1)) * 86400
    + tm.tm_hour * 3600 + tm.tm_min * 60 + tm.tm_sec - gmtoff

/-! ## Reading through the pointer -/

theorem deref_nil_zero : deref [] 0 = Except.ok 0 := by
  simp [deref, storage]

theorem deref_nil_succ (k : Nat) : deref [] (k + 1) = Except.error Stop.oob := by
  simp [deref, storage]

theorem deref_cons_zero (c : Int) (s : List Int) : deref (c :: s) 0 = Except.ok c := by
  simp [deref, storage]

theorem deref_cons_succ (c : Int) (s : List Int) (k : Nat) :
    deref (c :: s) (k + 1) = deref s k := by
  simp [deref, storage]

/-! ## The macros -/

theorem isdigit_iff (c : Int) : isdigit c = true ↔ 48 ≤ c ∧ c ≤ 57 := by
  simp [isdigit]

theorem REQ_NUM_ok (a : Int) (h : isdigit a = true) : REQ_NUM a = Except.ok () := by
  rw [isdigit_iff] at h
  unfold REQ_NUM
  rw [if_neg (by omega)]
  rfl

theorem REQ_NUM_bad (a : Int) (h : isdigit a = false) :
    REQ_NUM a = Except.error (Stop.ret JC_EDATETIME) := by
  have h2 : ¬ (48 ≤ a ∧ a ≤ 57) := by
    rw [← isdigit_iff]
    simp [h]
  unfold REQ_NUM
  rw [if_pos (by omega)]
  rfl

theorem REQ_NUM_zero : REQ_NUM 0 = Except.error (Stop.ret JC_EDATETIME) :=
  REQ_NUM_bad 0 (by decide)

theorem isdigit_ne_zero (a : Int) (h : isdigit a = true) : (a = 0) = False := by
  rw [isdigit_iff] at h
  refine eq_false ?_
  omega

theorem ATONUM_nonneg (a : Int) (h : isdigit a = true) : 0 ≤ ATONUM a := by
  rw [isdigit_iff] at h
  unfold ATONUM
  omega

theorem shl_eq (a : Int) (n : Nat) (h : 0 ≤ a) : shl a n = a * 2 ^ n := by
  unfold shl
  rw [Nat.shiftLeft_eq]
  push_cast
  rw [Int.toNat_of_nonneg h]

theorem MUL10_eq (shift : Bool) (a : Int) (h : 0 ≤ a) : MUL10 shift a = 10 * a := by
  unfold MUL10
  cases shift
  · simp only [Bool.false_eq_true, if_false]
    ring
  · simp only [if_true, shl_eq a _ h]
    ring

theorem MUL100_eq (shift : Bool) (a : Int) (h : 0 ≤ a) : MUL100 shift a = 100 * a := by
  unfold MUL100
  cases shift
  · simp only [Bool.false_eq_true, if_false]
    ring
  · simp only [if_true, shl_eq a _ h]
    ring

theorem bind_ok {α β : Type} (a : α) (f : α → Except Stop β) :
    Except.bind (Except.ok a) f = f a := rfl

theorem zero_ne_45 : ((0 : Int) = 45) = False := by decide

theorem zero_ne_58 : ((0 : Int) = 58) = False := by decide


/-! ## The three outcomes of the parse -/

/-- A string of the shape `DDDD-DD-DD` reaches `skip_time` with these fields. -/
theorem tm_date (shift : Bool) (y1 y2 y3 y4 m1 m2 d1 d2 : Int)
    (hy1 : isdigit y1 = true) (hy2 : isdigit y2 = true) (hy3 : isdigit y3 = true)
    (hy4 : isdigit y4 = true) (hm1 : isdigit m1 = true) (hm2 : isdigit m2 = true)
    (hd1 : isdigit d1 = true) (hd2 : isdigit d2 = true) :
    jc_strtoepoch_tm shift (some [y1, y2, y3, y4, 45, m1, m2, 45, d1, d2]) =
      Except.ok
        { tm_sec := 0, tm_min := 0, tm_hour := 0,
          tm_mday := 10 * (d1 - 48) + (d2 - 48),
          tm_mon := 10 * (m1 - 48) + (m2 - 48) - 1,
          tm_year := (if y1 = 50 then 2000 else 1000) + 100 * (y2 - 48)
            + 10 * (y3 - 48) + (y4 - 48) - 1900,
          tm_wday := 0, tm_yday := 0, tm_isdst := -1 } := by
  unfold jc_strtoepoch_tm
  simp only [bind, pure, Except.pure, Nat.zero_add, Nat.reduceAdd, ne_eq, Tm.zeroed]
  simp only [deref_cons_zero, deref_cons_succ, deref_nil_zero, bind_ok,
    REQ_NUM_ok _ hy1, REQ_NUM_ok _ hy2, REQ_NUM_ok _ hy3, REQ_NUM_ok _ hy4,
    REQ_NUM_ok _ hm1, REQ_NUM_ok _ hm2, REQ_NUM_ok _ hd1, REQ_NUM_ok _ hd2,
    isdigit_ne_zero _ hy1, if_false, if_true, not_true_eq_false]
  rw [MUL100_eq shift _ (ATONUM_nonneg _ hy2), MUL10_eq shift _ (ATONUM_nonneg _ hy3),
    MUL10_eq shift _ (ATONUM_nonneg _ hm1), MUL10_eq shift _ (ATONUM_nonneg _ hd1)]
  unfold ATONUM
  split_ifs <;> simp only [Except.ok.injEq, Tm.mk.injEq, true_and, and_true] <;> omega

/-- A string of the shape `DDDD-DD-DD DD:DD:DD` reaches `skip_time` with these
fields. -/
theorem tm_datetime (shift : Bool) (y1 y2 y3 y4 m1 m2 d1 d2 h1 h2 n1 n2 s1 s2 : Int)
    (hy1 : isdigit y1 = true) (hy2 : isdigit y2 = true) (hy3 : isdigit y3 = true)
    (hy4 : isdigit y4 = true) (hm1 : isdigit m1 = true) (hm2 : isdigit m2 = true)
    (hd1 : isdigit d1 = true) (hd2 : isdigit d2 = true) (hh1 : isdigit h1 = true)
    (hh2 : isdigit h2 = true) (hn1 : isdigit n1 = true) (hn2 : isdigit n2 = true)
    (hs1 : isdigit s1 = true) (hs2 : isdigit s2 = true) :
    jc_strtoepoch_tm shift
        (some [y1, y2, y3, y4, 45, m1, m2, 45, d1, d2, 32, h1, h2, 58, n1, n2, 58, s1, s2]) =
      Except.ok
        { tm_sec := 10 * (s1 - 48) + (s2 - 48),
          tm_min := 10 * (n1 - 48) + (n2 - 48),
          tm_hour := 10 * (h1 - 48) + (h2 - 48),
          tm_mday := 10 * (d1 - 48) + (d2 - 48),
          tm_mon := 10 * (m1 - 48) + (m2 - 48) - 1,
          tm_year := (if y1 = 50 then 2000 else 1000) + 100 * (y2 - 48)
            + 10 * (y3 - 48) + (y4 - 48) - 1900,
          tm_wday := 0, tm_yday := 0, tm_isdst := -1 } := by
  have h32 : ((32 : Int) = 0) = False := by decide
  unfold jc_strtoepoch_tm
  simp only [bind, pure, Except.pure, Nat.zero_add, Nat.reduceAdd, ne_eq, Tm.zeroed]
  simp only [deref_cons_zero, deref_cons_succ, deref_nil_zero, bind_ok,
    REQ_NUM_ok _ hy1, REQ_NUM_ok _ hy2, REQ_NUM_ok _ hy3, REQ_NUM_ok _ hy4,
    REQ_NUM_ok _ hm1, REQ_NUM_ok _ hm2, REQ_NUM_ok _ hd1, REQ_NUM_ok _ hd2,
    REQ_NUM_ok _ hh1, REQ_NUM_ok _ hh2, REQ_NUM_ok _ hn1, REQ_NUM_ok _ hn2,
    REQ_NUM_ok _ hs1, REQ_NUM_ok _ hs2, h32,
    isdigit_ne_zero _ hy1, if_false, if_true, not_true_eq_false, not_false_eq_true]
  rw [MUL100_eq shift _ (ATONUM_nonneg _ hy2), MUL10_eq shift _ (ATONUM_nonneg _ hy3),
    MUL10_eq shift _ (ATONUM_nonneg _ hm1), MUL10_eq shift _ (ATONUM_nonneg _ hd1),
    MUL10_eq shift _ (ATONUM_nonneg _ hh1), MUL10_eq shift _ (ATONUM_nonneg _ hn1),
    MUL10_eq shift _ (ATONUM_nonneg _ hs1)]
  unfold ATONUM
  split_ifs <;> simp only [Except.ok.injEq, Tm.mk.injEq, true_and, and_true] <;> omega

/-- A non-empty string of neither shape leaves through `return JC_EDATETIME;`.
The proof follows the pointer: at each index the string has either ended, or
holds a character the grammar refuses, or holds one it takes. -/
theorem tm_reject (shift : Bool) (s : List Int) (hne : s ≠ []) (hz : NulFree s)
    (hd : dateShape s = false) (ht : dateTimeShape s = false) :
    jc_strtoepoch_tm shift (some s) = Except.error (Stop.ret JC_EDATETIME) := by
  unfold jc_strtoepoch_tm
  simp only [bind, Except.bind, pure, Except.pure, Nat.zero_add, Nat.reduceAdd, ne_eq, Tm.zeroed]
  rcases s with _ | ⟨c0, s⟩
  · exact absurd rfl hne
  have z0 : (c0 = 0) = False := eq_false (hz c0 (by simp))
  rcases Bool.eq_false_or_eq_true (isdigit c0) with h0 | h0
  swap
  · simp only [deref_cons_zero, deref_cons_succ, z0, REQ_NUM_bad _ h0, if_true, if_false, ite_self, not_true_eq_false, not_false_eq_true]
  simp only [deref_cons_zero, deref_cons_succ, z0, REQ_NUM_ok _ h0, if_true, if_false, ite_self, not_true_eq_false, not_false_eq_true]
  rcases s with _ | ⟨c1, s⟩
  · simp only [deref_nil_zero, deref_nil_succ, REQ_NUM_zero, if_true, if_false, ite_self, not_true_eq_false, not_false_eq_true]
  rcases Bool.eq_false_or_eq_true (isdigit c1) with h1 | h1
  swap
  · simp only [deref_cons_zero, deref_cons_succ, REQ_NUM_bad _ h1, if_true, if_false, ite_self, not_true_eq_false, not_false_eq_true]
  simp only [deref_cons_zero, deref_cons_succ, REQ_NUM_ok _ h1, if_true, if_false, ite_self, not_true_eq_false, not_false_eq_true]
  rcases s with _ | ⟨c2, s⟩
  · simp only [deref_nil_zero, deref_nil_succ, REQ_NUM_zero, if_true, if_false, ite_self, not_true_eq_false, not_false_eq_true]
  rcases Bool.eq_false_or_eq_true (isdigit c2) with h2 | h2
  swap
  · simp only [deref_cons_zero, deref_cons_succ, REQ_NUM_bad _ h2, if_true, if_false, ite_self, not_true_eq_false, not_false_eq_true]
  simp only [deref_cons_zero, deref_cons_succ, REQ_NUM_ok _ h2, if_true, if_false, ite_self, not_true_eq_false, not_false_eq_true]
  rcases s with _ | ⟨c3, s⟩
  · simp only [deref_nil_zero, deref_nil_succ, REQ_NUM_zero, if_true, if_false, ite_self, not_true_eq_false, not_false_eq_true]
  rcases Bool.eq_false_or_eq_true (isdigit c3) with h3 | h3
  swap
  · simp only [deref_cons_zero, deref_cons_succ, REQ_NUM_bad _ h3, if_true, if_false, ite_self, not_true_eq_false, not_false_eq_true]
  simp only [deref_cons_zero, deref_cons_succ, REQ_NUM_ok _ h3, if_true, if_false, ite_self, not_true_eq_false, not_false_eq_true]
  rcases s with _ | ⟨c4, s⟩
  · simp only [deref_nil_zero, deref_nil_succ, zero_ne_45, if_true, if_false, ite_self, not_true_eq_false, not_false_eq_true]
  by_cases h4 : c4 = 45
  swap
  · simp only [deref_cons_zero, deref_cons_succ, eq_false h4, if_true, if_false, ite_self, not_true_eq_false, not_false_eq_true]
  simp only [deref_cons_zero, deref_cons_succ, h4, eq_self, if_true, if_false, ite_self, not_true_eq_false, not_false_eq_true]
  rcases s with _ | ⟨c5, s⟩
  · simp only [deref_nil_zero, deref_nil_succ, REQ_NUM_zero, if_true, if_false, ite_self, not_true_eq_false, not_false_eq_true]
  rcases Bool.eq_false_or_eq_true (isdigit c5) with h5 | h5
  swap
  · simp only [deref_cons_zero, deref_cons_succ, REQ_NUM_bad _ h5, if_true, if_false, ite_self, not_true_eq_false, not_false_eq_true]
  simp only [deref_cons_zero, deref_cons_succ, REQ_NUM_ok _ h5, if_true, if_false, ite_self, not_true_eq_false, not_false_eq_true]
  rcases s with _ | ⟨c6, s⟩
  · simp only [deref_nil_zero, deref_nil_succ, REQ_NUM_zero, if_true, if_false, ite_self, not_true_eq_false, not_false_eq_true]
  rcases Bool.eq_false_or_eq_true (isdigit c6) with h6 | h6
  swap
  · simp only [deref_cons_zero, deref_cons_succ, REQ_NUM_bad _ h6, if_true, if_false, ite_self, not_true_eq_false, not_false_eq_true]
  simp only [deref_cons_zero, deref_cons_succ, REQ_NUM_ok _ h6, if_true, if_false, ite_self, not_true_eq_false, not_false_eq_true]
  rcases s with _ | ⟨c7, s⟩
  · simp only [deref_nil_zero, deref_nil_succ, zero_ne_45, if_true, if_false, ite_self, not_true_eq_false, not_false_eq_true]
  by_cases h7 : c7 = 45
  swap
  · simp only [deref_cons_zero, deref_cons_succ, eq_false h7, if_true, if_false, ite_self, not_true_eq_false, not_false_eq_true]
  simp only [deref_cons_zero, deref_cons_succ, h7, eq_self, if_true, if_false, ite_self, not_true_eq_false, not_false_eq_true]
  rcases s with _ | ⟨c8, s⟩
  · simp only [deref_nil_zero, deref_nil_succ, REQ_NUM_zero, if_true, if_false, ite_self, not_true_eq_false, not_false_eq_true]
  rcases Bool.eq_false_or_eq_true (isdigit c8) with h8 | h8
  swap
  · simp only [deref_cons_zero, deref_cons_succ, REQ_NUM_bad _ h8, if_true, if_false, ite_self, not_true_eq_false, not_false_eq_true]
  simp only [deref_cons_zero, deref_cons_succ, REQ_NUM_ok _ h8, if_true, if_false, ite_self, not_true_eq_false, not_false_eq_true]
  rcases s with _ | ⟨c9, s⟩
  · simp only [deref_nil_zero, deref_nil_succ, REQ_NUM_zero, if_true, if_false, ite_self, not_true_eq_false, not_false_eq_true]
  rcases Bool.eq_false_or_eq_true (isdigit c9) with h9 | h9
  swap
  · simp only [deref_cons_zero, deref_cons_succ, REQ_NUM_bad _ h9, if_true, if_false, ite_self, not_true_eq_false, not_false_eq_true]
  simp only [deref_cons_zero, deref_cons_succ, REQ_NUM_ok _ h9, if_true, if_false, ite_self, not_true_eq_false, not_false_eq_true]
  rcases s with _ | ⟨c10, s⟩
  · exact absurd hd (by simp [dateShape, h0, h1, h2, h3, h4, h5, h6, h7, h8, h9])
  have z10 : (c10 = 0) = False := eq_false (hz c10 (by simp))
  by_cases h10 : c10 = 32
  swap
  · simp only [deref_cons_zero, deref_cons_succ, z10, eq_false h10, if_true, if_false, ite_self, not_true_eq_false, not_false_eq_true]
  have y10 : ((32 : Int) = 0) = False := by decide
  simp only [deref_cons_zero, deref_cons_succ, h10, y10, eq_self, if_true, if_false, ite_self, not_true_eq_false, not_false_eq_true]
  rcases s with _ | ⟨c11, s⟩
  · simp only [deref_nil_zero, deref_nil_succ, REQ_NUM_zero, if_true, if_false, ite_self, not_true_eq_false, not_false_eq_true]
  rcases Bool.eq_false_or_eq_true (isdigit c11) with h11 | h11
  swap
  · simp only [deref_cons_zero, deref_cons_succ, REQ_NUM_bad _ h11, if_true, if_false, ite_self, not_true_eq_false, not_false_eq_true]
  simp only [deref_cons_zero, deref_cons_succ, REQ_NUM_ok _ h11, if_true, if_false, ite_self, not_true_eq_false, not_false_eq_true]
  rcases s with _ | ⟨c12, s⟩
  · simp only [deref_nil_zero, deref_nil_succ, REQ_NUM_zero, if_true, if_false, ite_self, not_true_eq_false, not_false_eq_true]
  rcases Bool.eq_false_or_eq_true (isdigit c12) with h12 | h12
  swap
  · simp only [deref_cons_zero, deref_cons_succ, REQ_NUM_bad _ h12, if_true, if_false, ite_self, not_true_eq_false, not_false_eq_true]
  simp only [deref_cons_zero, deref_cons_succ, REQ_NUM_ok _ h12, if_true, if_false, ite_self, not_true_eq_false, not_false_eq_true]
  rcases s with _ | ⟨c13, s⟩
  · simp only [deref_nil_zero, deref_nil_succ, zero_ne_58, if_true, if_false, ite_self, not_true_eq_false, not_false_eq_true]
  by_cases h13 : c13 = 58
  swap
  · simp only [deref_cons_zero, deref_cons_succ, eq_false h13, if_true, if_false, ite_self, not_true_eq_false, not_false_eq_true]
  simp only [deref_cons_zero, deref_cons_succ, h13, eq_self, if_true, if_false, ite_self, not_true_eq_false, not_false_eq_true]
  rcases s with _ | ⟨c14, s⟩
  · simp only [deref_nil_zero, deref_nil_succ, REQ_NUM_zero, if_true, if_false, ite_self, not_true_eq_false, not_false_eq_true]
  rcases Bool.eq_false_or_eq_true (isdigit c14) with h14 | h14
  swap
  · simp only [deref_cons_zero, deref_cons_succ, REQ_NUM_bad _ h14, if_true, if_false, ite_self, not_true_eq_false, not_false_eq_true]
  simp only [deref_cons_zero, deref_cons_succ, REQ_NUM_ok _ h14, if_true, if_false, ite_self, not_true_eq_false, not_false_eq_true]
  rcases s with _ | ⟨c15, s⟩
  · simp only [deref_nil_zero, deref_nil_succ, REQ_NUM_zero, if_true, if_false, ite_self, not_true_eq_false, not_false_eq_true]
  rcases Bool.eq_false_or_eq_true (isdigit c15) with h15 | h15
  swap
  · simp only [deref_cons_zero, deref_cons_succ, REQ_NUM_bad _ h15, if_true, if_false, ite_self, not_true_eq_false, not_false_eq_true]
  simp only [deref_cons_zero, deref_cons_succ, REQ_NUM_ok _ h15, if_true, if_false, ite_self, not_true_eq_false, not_false_eq_true]
  rcases s with _ | ⟨c16, s⟩
  · simp only [deref_nil_zero, deref_nil_succ, zero_ne_58, if_true, if_false, ite_self, not_true_eq_false, not_false_eq_true]
  by_cases h16 : c16 = 58
  swap
  · simp only [deref_cons_zero, deref_cons_succ, eq_false h16, if_true, if_false, ite_self, not_true_eq_false, not_false_eq_true]
  simp only [deref_cons_zero, deref_cons_succ, h16, eq_self, if_true, if_false, ite_self, not_true_eq_false, not_false_eq_true]
  rcases s with _ | ⟨c17, s⟩
  · simp only [deref_nil_zero, deref_nil_succ, REQ_NUM_zero, if_true, if_false, ite_self, not_true_eq_false, not_false_eq_true]
  rcases Bool.eq_false_or_eq_true (isdigit c17) with h17 | h17
  swap
  · simp only [deref_cons_zero, deref_cons_succ, REQ_NUM_bad _ h17, if_true, if_false, ite_self, not_true_eq_false, not_false_eq_true]
  simp only [deref_cons_zero, deref_cons_succ, REQ_NUM_ok _ h17, if_true, if_false, ite_self, not_true_eq_false, not_false_eq_true]
  rcases s with _ | ⟨c18, s⟩
  · simp only [deref_nil_zero, deref_nil_succ, REQ_NUM_zero, if_true, if_false, ite_self, not_true_eq_false, not_false_eq_true]
  rcases Bool.eq_false_or_eq_true (isdigit c18) with h18 | h18
  swap
  · simp only [deref_cons_zero, deref_cons_succ, REQ_NUM_bad _ h18, if_true, if_false, ite_self, not_true_eq_false, not_false_eq_true]
  simp only [deref_cons_zero, deref_cons_succ, REQ_NUM_ok _ h18, if_true, if_false, ite_self, not_true_eq_false, not_false_eq_true]
  rcases s with _ | ⟨c19, s⟩
  · exact absurd ht (by simp [dateTimeShape, h0, h1, h2, h3, h4, h5, h6, h7, h8, h9, h10, h11, h12, h13, h14, h15, h16, h17, h18])
  have z19 : (c19 = 0) = False := eq_false (hz c19 (by simp))
  simp only [deref_cons_zero, deref_cons_succ, z19, if_true, if_false, ite_self, not_true_eq_false, not_false_eq_true]

/-- The NULL pointer and the empty string leave through `return JC_ENULL;`. -/
theorem tm_null (shift : Bool) :
    jc_strtoepoch_tm shift none = Except.error (Stop.ret JC_ENULL) ∧
    jc_strtoepoch_tm shift (some []) = Except.error (Stop.ret JC_ENULL) :=
  ⟨rfl, rfl⟩

/-! ## The shapes, unfolded -/

theorem dateShape_inv (s : List Int) (h : dateShape s = true) :
    ∃ y1 y2 y3 y4 m1 m2 d1 d2 : Int,
      s = [y1, y2, y3, y4, 45, m1, m2, 45, d1, d2] ∧
      isdigit y1 = true ∧ isdigit y2 = true ∧ isdigit y3 = true ∧ isdigit y4 = true ∧
      isdigit m1 = true ∧ isdigit m2 = true ∧ isdigit d1 = true ∧ isdigit d2 = true := by
  rcases s with
    _ | ⟨y1, _ | ⟨y2, _ | ⟨y3, _ | ⟨y4, _ | ⟨a, _ | ⟨m1, _ | ⟨m2, _ | ⟨b, _ | ⟨d1, _ | ⟨d2, _
    | ⟨x, t⟩⟩⟩⟩⟩⟩⟩⟩⟩⟩⟩
  all_goals try exact absurd h Bool.false_ne_true
  simp only [dateShape, Bool.and_eq_true, beq_iff_eq] at h
  obtain ⟨⟨⟨⟨⟨⟨⟨⟨⟨h1, h2⟩, h3⟩, h4⟩, rfl⟩, h5⟩, h6⟩, rfl⟩, h7⟩, h8⟩ := h
  exact ⟨y1, y2, y3, y4, m1, m2, d1, d2, rfl, h1, h2, h3, h4, h5, h6, h7, h8⟩

theorem dateTimeShape_inv (s : List Int) (h : dateTimeShape s = true) :
    ∃ y1 y2 y3 y4 m1 m2 d1 d2 h1 h2 n1 n2 s1 s2 : Int,
      s = [y1, y2, y3, y4, 45, m1, m2, 45, d1, d2, 32, h1, h2, 58, n1, n2, 58, s1, s2] ∧
      isdigit y1 = true ∧ isdigit y2 = true ∧ isdigit y3 = true ∧ isdigit y4 = true ∧
      isdigit m1 = true ∧ isdigit m2 = true ∧ isdigit d1 = true ∧ isdigit d2 = true ∧
      isdigit h1 = true ∧ isdigit h2 = true ∧ isdigit n1 = true ∧ isdigit n2 = true ∧
      isdigit s1 = true ∧ isdigit s2 = true := by
  rcases s with
    _ | ⟨y1, _ | ⟨y2, _ | ⟨y3, _ | ⟨y4, _ | ⟨a, _ | ⟨m1, _ | ⟨m2, _ | ⟨b, _ | ⟨d1, _ | ⟨d2, _
    | ⟨c, _ | ⟨h1, _ | ⟨h2, _ | ⟨e, _ | ⟨n1, _ | ⟨n2, _ | ⟨f, _ | ⟨s1, _ | ⟨s2, _ | ⟨x,
    t⟩⟩⟩⟩⟩⟩⟩⟩⟩⟩⟩⟩⟩⟩⟩⟩⟩⟩⟩⟩
  all_goals try exact absurd h Bool.false_ne_true
  simp only [dateTimeShape, Bool.and_eq_true, beq_iff_eq] at h
  obtain ⟨⟨⟨⟨⟨⟨⟨⟨⟨⟨⟨⟨⟨⟨⟨⟨⟨⟨g1, g2⟩, g3⟩, g4⟩, rfl⟩, g5⟩, g6⟩, rfl⟩, g7⟩, g8⟩, rfl⟩, g9⟩, g10⟩,
    rfl⟩, g11⟩, g12⟩, rfl⟩, g13⟩, g14⟩ := h
  exact ⟨y1, y2, y3, y4, m1, m2, d1, d2, h1, h2, n1, n2, s1, s2, rfl, g1, g2, g3, g4, g5, g6,
    g7, g8, g9, g10, g11, g12, g13, g14⟩

theorem digit_range (c : Int) (h : isdigit c = true) : 0 ≤ c - 48 ∧ c - 48 ≤ 9 := by
  rw [isdigit_iff] at h
  omega

/-- The record a date-only string yields, in the decimal values of its characters. -/
theorem tm_of_dateShape (shift : Bool) (s : List Int) (h : dateShape s = true) :
    jc_strtoepoch_tm shift (some s) =
      Except.ok
        { tm_sec := 0, tm_min := 0, tm_hour := 0,
          tm_mday := 10 * digit s 8 + digit s 9,
          tm_mon := 10 * digit s 5 + digit s 6 - 1,
          tm_year := (if s.getD 0 0 = 50 then 2000 else 1000) + 100 * digit s 1
            + 10 * digit s 2 + digit s 3 - 1900,
          tm_wday := 0, tm_yday := 0, tm_isdst := -1 } := by
  obtain ⟨y1, y2, y3, y4, m1, m2, d1, d2, rfl, h1, h2, h3, h4, h5, h6, h7, h8⟩ :=
    dateShape_inv s h
  rw [tm_date shift y1 y2 y3 y4 m1 m2 d1 d2 h1 h2 h3 h4 h5 h6 h7 h8]
  rfl

/-- The record a date-time string yields, in the decimal values of its characters. -/
theorem tm_of_dateTimeShape (shift : Bool) (s : List Int) (h : dateTimeShape s = true) :
    jc_strtoepoch_tm shift (some s) =
      Except.ok
        { tm_sec := 10 * digit s 17 + digit s 18,
          tm_min := 10 * digit s 14 + digit s 15,
          tm_hour := 10 * digit s 11 + digit s 12,
          tm_mday := 10 * digit s 8 + digit s 9,
          tm_mon := 10 * digit s 5 + digit s 6 - 1,
          tm_year := (if s.getD 0 0 = 50 then 2000 else 1000) + 100 * digit s 1
            + 10 * digit s 2 + digit s 3 - 1900,
          tm_wday := 0, tm_yday := 0, tm_isdst := -1 } := by
  obtain ⟨y1, y2, y3, y4, m1, m2, d1, d2, h1, h2, n1, n2, s1, s2, rfl, g1, g2, g3, g4, g5, g6,
    g7, g8, g9, g10, g11, g12, g13, g14⟩ := dateTimeShape_inv s h
  rw [tm_datetime shift y1 y2 y3 y4 m1 m2 d1 d2 h1 h2 n1 n2 s1 s2 g1 g2 g3 g4 g5 g6 g7 g8 g9
    g10 g11 g12 g13 g14]
  rfl

/-- The digits of a date-only string lie between 0 and 9. -/
theorem digit_range_date (s : List Int) (h : dateShape s = true) :
    ∀ k ∈ [1, 2, 3, 5, 6, 8, 9], 0 ≤ digit s k ∧ digit s k ≤ 9 := by
  obtain ⟨y1, y2, y3, y4, m1, m2, d1, d2, rfl, h1, h2, h3, h4, h5, h6, h7, h8⟩ :=
    dateShape_inv s h
  intro k hk
  simp only [List.mem_cons, List.mem_singleton, List.not_mem_nil, or_false] at hk
  rcases hk with rfl | rfl | rfl | rfl | rfl | rfl | rfl
  · exact digit_range y2 h2
  · exact digit_range y3 h3
  · exact digit_range y4 h4
  · exact digit_range m1 h5
  · exact digit_range m2 h6
  · exact digit_range d1 h7
  · exact digit_range d2 h8

/-- The digits of a date-time string lie between 0 and 9. -/
theorem digit_range_datetime (s : List Int) (h : dateTimeShape s = true) :
    ∀ k ∈ [1, 2, 3, 5, 6, 8, 9, 11, 12, 14, 15, 17, 18], 0 ≤ digit s k ∧ digit s k ≤ 9 := by
  obtain ⟨y1, y2, y3, y4, m1, m2, d1, d2, h1, h2, n1, n2, s1, s2, rfl, g1, g2, g3, g4, g5, g6,
    g7, g8, g9, g10, g11, g12, g13, g14⟩ := dateTimeShape_inv s h
  intro k hk
  simp only [List.mem_cons, List.mem_singleton, List.not_mem_nil, or_false] at hk
  rcases hk with rfl | rfl | rfl | rfl | rfl | rfl | rfl | rfl | rfl | rfl | rfl | rfl | rfl
  · exact digit_range y2 g2
  · exact digit_range y3 g3
  · exact digit_range y4 g4
  · exact digit_range m1 g5
  · exact digit_range m2 g6
  · exact digit_range d1 g7
  · exact digit_range d2 g8
  · exact digit_range h1 g9
  · exact digit_range h2 g10
  · exact digit_range n1 g11
  · exact digit_range n2 g12
  · exact digit_range s1 g13
  · exact digit_range s2 g14

/-- Only strings of one of the two shapes reach `skip_time`. -/
theorem shape_of_ok (shift : Bool) (s : List Int) (tm : Tm) (hz : NulFree s)
    (h : jc_strtoepoch_tm shift (some s) = Except.ok tm) :
    dateShape s = true ∨ dateTimeShape s = true := by
  by_contra hcon
  rw [not_or, Bool.not_eq_true, Bool.not_eq_true] at hcon
  by_cases hne : s = []
  · subst hne
    rw [(tm_null shift).2] at h
    exact Except.noConfusion h
  · rw [tm_reject shift s hne hz hcon.1 hcon.2] at h
    exact Except.noConfusion h

/-! ## From the body to the call -/

theorem run_of_ok (shift : Bool) (mktime : Tm → Int) (d : Option (List Int)) (tm : Tm)
    (h : jc_strtoepoch_tm shift d = Except.ok tm) :
    jc_strtoepoch_run shift mktime d = some { value := mktime tm, calls := [tm] } := by
  unfold jc_strtoepoch_run
  rw [h]

theorem run_of_ret (shift : Bool) (mktime : Tm → Int) (d : Option (List Int)) (code : Int)
    (h : jc_strtoepoch_tm shift d = Except.error (Stop.ret code)) :
    jc_strtoepoch_run shift mktime d = some { value := code, calls := [] } := by
  unfold jc_strtoepoch_run
  rw [h]

/-- A record among the calls of a run is the record the body ended with, and the
run returned what `mktime` made of it. -/
theorem ok_of_run (shift : Bool) (mktime : Tm → Int) (d : Option (List Int)) (r : Run)
    (tm : Tm) (hr : jc_strtoepoch_run shift mktime d = some r) (hm : tm ∈ r.calls) :
    jc_strtoepoch_tm shift d = Except.ok tm ∧ r = { value := mktime tm, calls := [tm] } := by
  unfold jc_strtoepoch_run at hr
  cases hb : jc_strtoepoch_tm shift d with
  | error e =>
    rw [hb] at hr
    cases e with
    | oob => exact Option.noConfusion hr
    | ret code =>
      injection hr with hr
      subst hr
      exact absurd hm (List.not_mem_nil tm)
  | ok t =>
    rw [hb] at hr
    injection hr with hr
    subst hr
    have ht : tm = t := List.mem_singleton.mp hm
    subst ht
    exact ⟨rfl, rfl⟩

/-- No string has both shapes. -/
theorem shapes_disjoint (s : List Int) (hd : dateShape s = true)
    (ht : dateTimeShape s = true) : False := by
  obtain ⟨y1, y2, y3, y4, m1, m2, d1, d2, rfl, -⟩ := dateShape_inv s hd
  exact absurd ht Bool.false_ne_true

theorem str_midnight : str " 00:00:00" = [32, 48, 48, 58, 48, 48, 58, 48, 48] := by
  decide

/-- Appending " 00:00:00" to a date-only string gives a date-time string that
the body turns into the same record. -/
theorem tm_midnight (shift : Bool) (s : List Int) (h : dateShape s = true) :
    jc_strtoepoch_tm shift (some (s ++ str " 00:00:00")) = jc_strtoepoch_tm shift (some s) := by
  obtain ⟨y1, y2, y3, y4, m1, m2, d1, d2, rfl, h1, h2, h3, h4, h5, h6, h7, h8⟩ :=
    dateShape_inv s h
  have h0 : isdigit 48 = true := by decide
  rw [str_midnight, tm_date shift y1 y2 y3 y4 m1 m2 d1 d2 h1 h2 h3 h4 h5 h6 h7 h8]
  exact tm_datetime shift y1 y2 y3 y4 m1 m2 d1 d2 48 48 48 48 48 48 h1 h2 h3 h4 h5 h6 h7 h8
    h0 h0 h0 h0 h0 h0

/-! ## Both builds, and the reach of the reads -/

/-- The body ends the same way in the build with shifts and in the build with
multiplications. -/
theorem tm_shift_irrelevant (s : List Int) (hz : NulFree s) :
    jc_strtoepoch_tm true (some s) = jc_strtoepoch_tm false (some s) := by
  by_cases hne : s = []
  · subst hne
    rw [(tm_null true).2, (tm_null false).2]
  · cases hd : dateShape s with
    | true => rw [tm_of_dateShape true s hd, tm_of_dateShape false s hd]
    | false =>
      cases ht : dateTimeShape s with
      | true => rw [tm_of_dateTimeShape true s ht, tm_of_dateTimeShape false s ht]
      | false => rw [tm_reject true s hne hz hd ht, tm_reject false s hne hz hd ht]

/-! ## The NT epoch conversions -/

theorem to_time_t_small (n : Nat) (h : n < 2 ^ 63) : to_time_t n = (n : Int) := by
  unfold to_time_t
  have h1 : n % 2 ^ 64 = n := Nat.mod_eq_of_lt (by omega)
  rw [h1, if_pos h]

theorem of_time_t_small (n : Nat) (h : n < 2 ^ 63) : of_time_t (n : Int) = n := by
  unfold of_time_t
  have h1 : ((n : Int) % 2 ^ 64) = (n : Int) := Int.emod_eq_of_lt (by omega) (by omega)
  rw [h1]
  rfl

theorem nttime_clamped (t : Nat) (ht : t < 2 ^ 64) (h : t / 10000000 ≤ 11644473600) :
    jc_nttime_to_unixtime t = 0 := by
  unfold jc_nttime_to_unixtime
  simp only [Nat.mod_eq_of_lt ht]
  rw [if_pos h]

theorem nttime_unclamped (t : Nat) (ht : t < 2 ^ 64) (h : 11644473600 < t / 10000000) :
    jc_nttime_to_unixtime t = ((t / 10000000 - 11644473600 : Nat) : Int) := by
  unfold jc_nttime_to_unixtime
  simp only [Nat.mod_eq_of_lt ht]
  rw [if_neg (by omega)]
  have h1 : (t / 10000000 + (2 ^ 64 - 11644473600)) % 2 ^ 64 = t / 10000000 - 11644473600 := by
    omega
  simp only [h1]
  exact to_time_t_small _ (by omega)

theorem unixtime_exact (s : Nat) (h : (s + 11644473600) * 10000000 < 2 ^ 63) :
    jc_unixtime_to_nttime s = (((s + 11644473600) * 10000000 : Nat) : Int) := by
  unfold jc_unixtime_to_nttime
  have h0 : s % 2 ^ 64 = s := Nat.mod_eq_of_lt (by omega)
  have h1 : (s + 11644473600) % 2 ^ 64 = s + 11644473600 := Nat.mod_eq_of_lt (by omega)
  have h2 : ((s + 11644473600) * 10000000) % 2 ^ 64 = (s + 11644473600) * 10000000 :=
    Nat.mod_eq_of_lt (by omega)
  simp only [h0, h1, h2]
  rw [if_neg (by omega)]
  exact to_time_t_small _ h

theorem dateShape_length (s : List Int) (h : dateShape s = true) : s.length = 10 := by
  obtain ⟨y1, y2, y3, y4, m1, m2, d1, d2, rfl, -⟩ := dateShape_inv s h
  rfl

theorem dateTimeShape_length (s : List Int) (h : dateTimeShape s = true) :
    s.length = 19 := by
  obtain ⟨y1, y2, y3, y4, m1, m2, d1, d2, h1, h2, n1, n2, s1, s2, rfl, -⟩ :=
    dateTimeShape_inv s h
  rfl

/-- A string of 20 or more characters leaves through `return JC_EDATETIME;`. -/
theorem tm_long_reject (shift : Bool) (s : List Int) (hz : NulFree s)
    (hl : 20 ≤ s.length) :
    jc_strtoepoch_tm shift (some s) = Except.error (Stop.ret JC_EDATETIME) := by
  have hne : s ≠ [] := by
    intro h
    subst h
    exact absurd hl (by decide)
  have hd : dateShape s = false := by
    cases h : dateShape s with
    | false => rfl
    | true =>
      have := dateShape_length s h
      omega
  have ht : dateTimeShape s = false := by
    cases h : dateTimeShape s with
    | false => rfl
    | true =>
      have := dateTimeShape_length s h
      omega
  exact tm_reject shift s hne hz hd ht

/-- The body never reads outside the storage of its input. -/
theorem tm_never_oob (shift : Bool) (s : List Int) (hz : NulFree s) :
    jc_strtoepoch_tm shift (some s) ≠ Except.error Stop.oob := by
  by_cases hne : s = []
  · subst hne
    rw [(tm_null shift).2]
    intro h
    injection h with h
    exact Stop.noConfusion h
  · cases hd : dateShape s with
    | true =>
      rw [tm_of_dateShape shift s hd]
      intro h
      exact Except.noConfusion h
    | false =>
      cases ht : dateTimeShape s with
      | true =>
        rw [tm_of_dateTimeShape shift s ht]
        intro h
        exact Except.noConfusion h
      | false =>
        rw [tm_reject shift s hne hz hd ht]
        intro h
        injection h with h
        exact Stop.noConfusion h

theorem storage_take_short (s : List Int) (h : s.length ≤ 19) :
    (storage s).take 20 = s ++ [0] := by
  unfold storage
  exact List.take_of_length_le (by simp only [List.length_append, List.length_singleton]; omega)

theorem storage_take_long (s : List Int) (h : 20 ≤ s.length) :
    (storage s).take 20 = s.take 20 := by
  unfold storage
  exact List.take_append_of_le_length h

/-- The terminator is among the first 20 bytes of the storage exactly when the
string has at most 19 characters. -/
theorem zero_mem_storage_take (s : List Int) (hz : NulFree s) :
    (0 : Int) ∈ (storage s).take 20 ↔ s.length ≤ 19 := by
  constructor
  · intro h
    by_contra hl
    rw [storage_take_long s (by omega)] at h
    exact hz 0 (List.mem_of_mem_take h) rfl
  · intro hl
    rw [storage_take_short s hl]
    exact List.mem_append_right s (List.mem_singleton.mpr rfl)

/-- Two strings whose storages begin with the same 20 bytes end the body the
same way. -/
theorem tm_of_first_bytes (shift : Bool) (s s' : List Int) (hz : NulFree s)
    (hz' : NulFree s') (h : (storage s).take 20 = (storage s').take 20) :
    jc_strtoepoch_tm shift (some s) = jc_strtoepoch_tm shift (some s') := by
  have hiff : s.length ≤ 19 ↔ s'.length ≤ 19 := by
    rw [← zero_mem_storage_take s hz, ← zero_mem_storage_take s' hz', h]
  by_cases hl : s.length ≤ 19
  · rw [storage_take_short s hl, storage_take_short s' (hiff.mp hl)] at h
    rw [List.append_cancel_right h]
  · have hl' : ¬ s'.length ≤ 19 := fun h' => hl (hiff.mpr h')
    rw [tm_long_reject shift s hz (by omega), tm_long_reject shift s' hz' (by omega)]

/-- The body is its statements with the reads made from the storage of the
string. -/
theorem tm_eq_reading (shift : Bool) (s : List Int) :
    jc_strtoepoch_tm shift (some s) = jc_strtoepoch_reading shift (deref s) := rfl

/-- No statement reads at an index above 19: a reader that fails there serves as
well as the reader itself. -/
theorem reading_within_20 (shift : Bool) (rd : Nat → Except Stop Int) :
    jc_strtoepoch_reading shift (fun k => if k ≤ 19 then rd k else Except.error Stop.oob) =
      jc_strtoepoch_reading shift rd := by
  unfold jc_strtoepoch_reading
  simp only [Nat.zero_add, Nat.reduceAdd, Nat.reduceLeDiff, if_true]

theorem deref_beyond (s : List Int) (k : Nat) (h : s.length < k) :
    deref s k = Except.error Stop.oob := by
  unfold deref storage
  rw [List.getElem?_eq_none (by simp only [List.length_append, List.length_singleton]; omega)]

/-- The reads of the body stay at indices up to the length of the string and up
to 19. -/
theorem tm_reading_bounded (shift : Bool) (s : List Int) :
    jc_strtoepoch_reading shift
        (fun k => if k ≤ min s.length 19 then deref s k else Except.error Stop.oob) =
      jc_strtoepoch_tm shift (some s) := by
  have e : (fun k => if k ≤ min s.length 19 then deref s k else Except.error Stop.oob) =
      (fun k => if k ≤ 19 then deref s k else Except.error Stop.oob) := by
    funext k
    by_cases h19 : k ≤ 19
    · by_cases hn : k ≤ s.length
      · rw [if_pos (by omega), if_pos h19]
      · rw [if_neg (by omega), if_pos h19, deref_beyond s k (by omega)]
    · rw [if_neg (by omega), if_neg h19]
  rw [e, reading_within_20, tm_eq_reading]

/-! ## The first character -/

theorem dateShape_head (c c' : Int) (hc : isdigit c = true) (hc' : isdigit c' = true)
    (rest : List Int) : dateShape (c :: rest) = dateShape (c' :: rest) := by
  rcases rest with
    _ | ⟨y2, _ | ⟨y3, _ | ⟨y4, _ | ⟨a, _ | ⟨m1, _ | ⟨m2, _ | ⟨b, _ | ⟨d1, _ | ⟨d2, _ | ⟨x,
    t⟩⟩⟩⟩⟩⟩⟩⟩⟩⟩
  all_goals first | rfl | simp only [dateShape, hc, hc']

theorem dateTimeShape_head (c c' : Int) (hc : isdigit c = true) (hc' : isdigit c' = true)
    (rest : List Int) : dateTimeShape (c :: rest) = dateTimeShape (c' :: rest) := by
  rcases rest with
    _ | ⟨y2, _ | ⟨y3, _ | ⟨y4, _ | ⟨a, _ | ⟨m1, _ | ⟨m2, _ | ⟨b, _ | ⟨d1, _ | ⟨d2, _ | ⟨c, _ |
    ⟨h1, _ | ⟨h2, _ | ⟨e, _ | ⟨n1, _ | ⟨n2, _ | ⟨f, _ | ⟨s1, _ | ⟨s2, _ | ⟨x,
    t⟩⟩⟩⟩⟩⟩⟩⟩⟩⟩⟩⟩⟩⟩⟩⟩⟩⟩⟩
  all_goals first | rfl | simp only [dateTimeShape, hc, hc']

/-- A leading digit other than `'2'` ends the body as the leading digit `'1'`
does. -/
theorem tm_head_as_one (shift : Bool) (c : Int) (rest : List Int) (hc : isdigit c = true)
    (h2 : c ≠ 50) (hz : NulFree rest) :
    jc_strtoepoch_tm shift (some (c :: rest)) = jc_strtoepoch_tm shift (some (49 :: rest)) := by
  have h1 : isdigit 49 = true := by decide
  have hzc : NulFree (c :: rest) := by
    intro x hx
    rcases List.mem_cons.mp hx with rfl | hx
    · intro h0
      subst h0
      exact absurd hc (by decide)
    · exact hz x hx
  have hz1 : NulFree (49 :: rest) := by
    intro x hx
    rcases List.mem_cons.mp hx with rfl | hx
    · decide
    · exact hz x hx
  have ed := dateShape_head c 49 hc h1 rest
  have et := dateTimeShape_head c 49 hc h1 rest
  have n49 : ((49 : Int) = 50) = False := by decide
  cases hd : dateShape (c :: rest) with
  | true =>
    rw [tm_of_dateShape shift _ hd, tm_of_dateShape shift _ (ed ▸ hd)]
    simp only [digit, List.getD_cons_succ, List.getD_cons_zero, eq_false h2, n49, if_false]
  | false =>
    cases ht : dateTimeShape (c :: rest) with
    | true =>
      rw [tm_of_dateTimeShape shift _ ht, tm_of_dateTimeShape shift _ (et ▸ ht)]
      simp only [digit, List.getD_cons_succ, List.getD_cons_zero, eq_false h2, n49, if_false]
    | false =>
      rw [tm_reject shift _ (List.cons_ne_nil c rest) hzc hd ht,
        tm_reject shift _ (List.cons_ne_nil 49 rest) hz1 (ed ▸ hd) (et ▸ ht)]

/-! ## The error table -/

theorem errcnt_eq : errcnt = 6 := rfl

/-! ## The host normaliser -/

theorem str_last_second : str " 23:59:59" = [32, 50, 51, 58, 53, 57, 58, 53, 57] := by
  decide

/-- In the fixed-offset normaliser, the last second of a day and the first second
of the day numbered one higher, in the same month and year, are one apart. -/
theorem mktime_fixed_next_day (gmtoff : Int) (year mon day next : Int)
    (h : next = day + 1) :
    mktime_fixed gmtoff ⟨0, 0, 0, next, mon, year, 0, 0, -1⟩ -
      mktime_fixed gmtoff ⟨59, 59, 23, day, mon, year, 0, 0, -1⟩ = 1 := by
  subst h
  unfold mktime_fixed
  simp only
  generalize days_from_civil (year + 1900 + mon / 12) (mon % 12 + 1) 1 = base
  omega

/-! ## The claims -/

/-- C1: a non-empty C string that has neither the shape `DDDD-DD-DD` nor the shape
`DDDD-DD-DD DD:DD:DD` makes `jc_strtoepoch` return `JC_EDATETIME`, which is 11, and
`mktime` is not called on the way. -/
theorem C1_malformed_returns_EDATETIME (shift : Bool) (mktime : Tm → Int) (s : List Int)
    (hne : s ≠ []) (hz : NulFree s) (hd : dateShape s = false)
    (ht : dateTimeShape s = false) :
    jc_strtoepoch_run shift mktime (some s) = some { value := JC_EDATETIME, calls := [] } ∧
    JC_EDATETIME = 11 :=
  ⟨run_of_ret shift mktime (some s) JC_EDATETIME (tm_reject shift s hne hz hd ht), rfl⟩

/-- C1 at the inputs "2023-1-01" (no leading zero) and "2023-01-01X" (a character
after the day). -/
theorem C1_malformed_returns_EDATETIME_witness :
    (str "2023-1-01" ≠ [] ∧ NulFree (str "2023-1-01") ∧
      dateShape (str "2023-1-01") = false ∧ dateTimeShape (str "2023-1-01") = false ∧
      jc_strtoepoch_run false (fun _ => 0) (some (str "2023-1-01")) =
        some { value := 11, calls := [] }) ∧
    (str "2023-01-01X" ≠ [] ∧ NulFree (str "2023-01-01X") ∧
      dateShape (str "2023-01-01X") = false ∧ dateTimeShape (str "2023-01-01X") = false ∧
      jc_strtoepoch_run false (fun _ => 0) (some (str "2023-01-01X")) =
        some { value := 11, calls := [] }) :=
  ⟨⟨by decide, by decide, by decide, by decide,
      (C1_malformed_returns_EDATETIME false (fun _ => 0) (str "2023-1-01")
        (by decide) (by decide) (by decide) (by decide)).1⟩,
    ⟨by decide, by decide, by decide, by decide,
      (C1_malformed_returns_EDATETIME false (fun _ => 0) (str "2023-01-01X")
        (by decide) (by decide) (by decide) (by decide)).1⟩⟩

/-- C2: for the NULL pointer and for the empty string `jc_strtoepoch` returns
`JC_ENULL`, which is 1, and `mktime` is not called. -/
theorem C2_null_or_empty_returns_ENULL (shift : Bool) (mktime : Tm → Int) :
    jc_strtoepoch_run shift mktime none = some { value := JC_ENULL, calls := [] } ∧
    jc_strtoepoch_run shift mktime (some []) = some { value := JC_ENULL, calls := [] } ∧
    JC_ENULL = 1 :=
  ⟨run_of_ret shift mktime none JC_ENULL (tm_null shift).1,
    run_of_ret shift mktime (some []) JC_ENULL (tm_null shift).2, rfl⟩

/-- C3, evaluated: for the NULL pointer, the empty string and the malformed string
"2023-1-01" the function returns 1, 1 and 11.  None of these is negative, and none
is the -1 that the comment above the function announces. -/
theorem C3_error_values_are_positive (shift : Bool) (mktime : Tm → Int) :
    jc_strtoepoch shift mktime none = some 1 ∧
    jc_strtoepoch shift mktime (some (str "")) = some 1 ∧
    jc_strtoepoch shift mktime (some (str "2023-1-01")) = some 11 ∧
    ¬ ((1 : Int) < 0) ∧ ¬ ((11 : Int) < 0) := by
  refine ⟨?_, ?_, ?_, by decide, by decide⟩
  · unfold jc_strtoepoch
    rw [run_of_ret shift mktime none JC_ENULL (tm_null shift).1]
    rfl
  · unfold jc_strtoepoch
    rw [run_of_ret shift mktime (some (str "")) JC_ENULL (tm_null shift).2]
    rfl
  · unfold jc_strtoepoch
    rw [run_of_ret shift mktime (some (str "2023-1-01")) JC_EDATETIME
      (tm_reject shift _ (by decide) (by decide) (by decide) (by decide))]
    rfl

/-- C4: a string of the shape `DDDD-DD-DD` or `DDDD-DD-DD DD:DD:DD`, whatever its
digits, takes no error exit: `mktime` is called once and its result is returned.
For "2023-13-01" the record handed over has `tm_year` 123, `tm_mon` 12 and
`tm_mday` 1. -/
theorem C4_shape_reaches_mktime (shift : Bool) (mktime : Tm → Int) :
    (∀ s : List Int, dateShape s = true ∨ dateTimeShape s = true →
      ∃ tm : Tm, jc_strtoepoch_run shift mktime (some s) =
        some { value := mktime tm, calls := [tm] }) ∧
    ∃ tm : Tm, jc_strtoepoch_run shift mktime (some (str "2023-13-01")) =
        some { value := mktime tm, calls := [tm] } ∧
      tm.tm_year = 123 ∧ tm.tm_mon = 12 ∧ tm.tm_mday = 1 := by
  constructor
  · intro s h
    rcases h with h | h
    · exact ⟨_, run_of_ok shift mktime (some s) _ (tm_of_dateShape shift s h)⟩
    · exact ⟨_, run_of_ok shift mktime (some s) _ (tm_of_dateTimeShape shift s h)⟩
  · exact ⟨_, run_of_ok shift mktime _ _ (tm_of_dateShape shift (str "2023-13-01") (by decide)),
      by decide, by decide, by decide⟩

/-- C4 at "2023-00-40 99:00:00": month 00, day 40 and hour 99 are taken. -/
theorem C4_shape_reaches_mktime_witness :
    (dateShape (str "2023-00-40 99:00:00") = true ∨
      dateTimeShape (str "2023-00-40 99:00:00") = true) ∧
    ∃ tm : Tm, jc_strtoepoch_run false (fun t => t.tm_hour) (some (str "2023-00-40 99:00:00")) =
      some { value := (fun t => t.tm_hour) tm, calls := [tm] } :=
  ⟨Or.inr (by decide),
    (C4_shape_reaches_mktime false (fun t => t.tm_hour)).1 (str "2023-00-40 99:00:00")
      (Or.inr (by decide))⟩

/-- C5, evaluated: for "3999-01-01" the record handed to `mktime` has `tm_year` 99,
the value for the year 1999, although the four digits read 3999 and
3999 - 1900 = 2099; "1999-01-01" is handed over as the same record. -/
theorem C5_first_year_digit_not_scaled (shift : Bool) (mktime : Tm → Int) :
    ∃ tm : Tm,
      jc_strtoepoch_run shift mktime (some (str "3999-01-01")) =
        some { value := mktime tm, calls := [tm] } ∧
      tm.tm_year = 99 ∧
      tm.tm_year ≠ 1000 * 3 + 100 * 9 + 10 * 9 + 9 - 1900 ∧
      jc_strtoepoch_run shift mktime (some (str "1999-01-01")) =
        some { value := mktime tm, calls := [tm] } := by
  refine ⟨_, run_of_ok shift mktime _ _ (tm_of_dateShape shift (str "3999-01-01") (by decide)),
    by decide, by decide, ?_⟩
  rw [run_of_ok shift mktime _ _ (tm_of_dateShape shift (str "1999-01-01") (by decide))]
  rfl

/-- C6: whenever `jc_strtoepoch` hands a record to `mktime`, its `tm_mon` is ten
times the first month digit plus the second, minus one. -/
theorem C6_month_zero_based (shift : Bool) (mktime : Tm → Int) (s : List Int) (r : Run)
    (tm : Tm) (hz : NulFree s) (hr : jc_strtoepoch_run shift mktime (some s) = some r)
    (hm : tm ∈ r.calls) :
    tm.tm_mon = 10 * digit s 5 + digit s 6 - 1 := by
  obtain ⟨hb, -⟩ := ok_of_run shift mktime (some s) r tm hr hm
  rcases shape_of_ok shift s tm hz hb with h | h
  · rw [tm_of_dateShape shift s h] at hb
    injection hb with hb
    subst hb
    rfl
  · rw [tm_of_dateTimeShape shift s h] at hb
    injection hb with hb
    subst hb
    rfl

/-- C6 at "2023-01-15", where the month digits 01 give `tm_mon` 0, and at
"2023-12-25 10:30:00", where 12 gives 11. -/
theorem C6_month_zero_based_witness :
    (NulFree (str "2023-01-15") ∧
      jc_strtoepoch_run false (fun _ => 0) (some (str "2023-01-15")) =
        some { value := 0, calls := [⟨0, 0, 0, 15, 0, 123, 0, 0, -1⟩] } ∧
      (⟨0, 0, 0, 15, 0, 123, 0, 0, -1⟩ : Tm) ∈ [(⟨0, 0, 0, 15, 0, 123, 0, 0, -1⟩ : Tm)] ∧
      (0 : Int) = 10 * digit (str "2023-01-15") 5 + digit (str "2023-01-15") 6 - 1) ∧
    (NulFree (str "2023-12-25 10:30:00") ∧
      jc_strtoepoch_run false (fun _ => 0) (some (str "2023-12-25 10:30:00")) =
        some { value := 0, calls := [⟨0, 30, 10, 25, 11, 123, 0, 0, -1⟩] } ∧
      (⟨0, 30, 10, 25, 11, 123, 0, 0, -1⟩ : Tm) ∈ [(⟨0, 30, 10, 25, 11, 123, 0, 0, -1⟩ : Tm)] ∧
      (11 : Int) = 10 * digit (str "2023-12-25 10:30:00") 5
        + digit (str "2023-12-25 10:30:00") 6 - 1) :=
  ⟨⟨by decide, by decide, by decide,
      C6_month_zero_based false (fun _ => 0) (str "2023-01-15")
        { value := 0, calls := [⟨0, 0, 0, 15, 0, 123, 0, 0, -1⟩] }
        ⟨0, 0, 0, 15, 0, 123, 0, 0, -1⟩ (by decide) (by decide) (by decide)⟩,
    ⟨by decide, by decide, by decide,
      C6_month_zero_based false (fun _ => 0) (str "2023-12-25 10:30:00")
        { value := 0, calls := [⟨0, 30, 10, 25, 11, 123, 0, 0, -1⟩] }
        ⟨0, 30, 10, 25, 11, 123, 0, 0, -1⟩ (by decide) (by decide) (by decide)⟩⟩

/-- C7: whenever `jc_strtoepoch` hands a record to `mktime`, its `tm_mday` is ten
times the first day digit plus the second, and for a date-time string `tm_hour`,
`tm_min` and `tm_sec` are likewise ten times the first digit plus the second of
their field; nothing is subtracted and nothing is clamped. -/
theorem C7_day_and_time_as_written (shift : Bool) (mktime : Tm → Int) (s : List Int)
    (r : Run) (tm : Tm) (hz : NulFree s)
    (hr : jc_strtoepoch_run shift mktime (some s) = some r) (hm : tm ∈ r.calls) :
    tm.tm_mday = 10 * digit s 8 + digit s 9 ∧
    (dateTimeShape s = true →
      tm.tm_hour = 10 * digit s 11 + digit s 12 ∧
      tm.tm_min = 10 * digit s 14 + digit s 15 ∧
      tm.tm_sec = 10 * digit s 17 + digit s 18) := by
  obtain ⟨hb, -⟩ := ok_of_run shift mktime (some s) r tm hr hm
  rcases shape_of_ok shift s tm hz hb with h | h
  · rw [tm_of_dateShape shift s h] at hb
    injection hb with hb
    subst hb
    exact ⟨rfl, fun ht => (shapes_disjoint s h ht).elim⟩
  · rw [tm_of_dateTimeShape shift s h] at hb
    injection hb with hb
    subst hb
    exact ⟨rfl, fun _ => ⟨rfl, rfl, rfl⟩⟩

/-- C7 at "2023-01-99 99:60:61": day 99, hour 99, minute 60 and second 61 are
handed over as written. -/
theorem C7_day_and_time_as_written_witness :
    NulFree (str "2023-01-99 99:60:61") ∧
    jc_strtoepoch_run false (fun _ => 0) (some (str "2023-01-99 99:60:61")) =
      some { value := 0, calls := [⟨61, 60, 99, 99, 0, 123, 0, 0, -1⟩] } ∧
    (⟨61, 60, 99, 99, 0, 123, 0, 0, -1⟩ : Tm) ∈ [(⟨61, 60, 99, 99, 0, 123, 0, 0, -1⟩ : Tm)] ∧
    dateTimeShape (str "2023-01-99 99:60:61") = true ∧
    (99 : Int) = 10 * digit (str "2023-01-99 99:60:61") 8
      + digit (str "2023-01-99 99:60:61") 9 ∧
    (99 : Int) = 10 * digit (str "2023-01-99 99:60:61") 11
      + digit (str "2023-01-99 99:60:61") 12 ∧
    (60 : Int) = 10 * digit (str "2023-01-99 99:60:61") 14
      + digit (str "2023-01-99 99:60:61") 15 ∧
    (61 : Int) = 10 * digit (str "2023-01-99 99:60:61") 17
      + digit (str "2023-01-99 99:60:61") 18 :=
  have h := C7_day_and_time_as_written false (fun _ => 0) (str "2023-01-99 99:60:61")
    { value := 0, calls := [⟨61, 60, 99, 99, 0, 123, 0, 0, -1⟩] }
    ⟨61, 60, 99, 99, 0, 123, 0, 0, -1⟩ (by decide) (by decide) (by decide)
  ⟨by decide, by decide, by decide, by decide, h.1, (h.2 (by decide)).1,
    (h.2 (by decide)).2.1, (h.2 (by decide)).2.2⟩

/-- C8: a string of the date-only shape `DDDD-DD-DD` is parsed with success, the
record handed to `mktime` has `tm_hour`, `tm_min` and `tm_sec` zero, and the
function returns the same value as for that string followed by " 00:00:00". -/
theorem C8_date_only_is_midnight (shift : Bool) (mktime : Tm → Int) (s : List Int)
    (h : dateShape s = true) :
    (∃ tm : Tm,
      jc_strtoepoch_run shift mktime (some s) = some { value := mktime tm, calls := [tm] } ∧
      tm.tm_hour = 0 ∧ tm.tm_min = 0 ∧ tm.tm_sec = 0) ∧
    jc_strtoepoch shift mktime (some s) =
      jc_strtoepoch shift mktime (some (s ++ str " 00:00:00")) := by
  refine ⟨⟨_, run_of_ok shift mktime (some s) _ (tm_of_dateShape shift s h), rfl, rfl, rfl⟩, ?_⟩
  unfold jc_strtoepoch jc_strtoepoch_run
  rw [tm_midnight shift s h]

/-- C8 at "2023-01-01". -/
theorem C8_date_only_is_midnight_witness :
    dateShape (str "2023-01-01") = true ∧
    (∃ tm : Tm,
      jc_strtoepoch_run false (fun t => t.tm_mday) (some (str "2023-01-01")) =
        some { value := (fun t => t.tm_mday) tm, calls := [tm] } ∧
      tm.tm_hour = 0 ∧ tm.tm_min = 0 ∧ tm.tm_sec = 0) ∧
    jc_strtoepoch false (fun t => t.tm_mday) (some (str "2023-01-01")) =
      jc_strtoepoch false (fun t => t.tm_mday) (some (str "2023-01-01" ++ str " 00:00:00")) :=
  ⟨by decide,
    C8_date_only_is_midnight false (fun t => t.tm_mday) (str "2023-01-01") (by decide)⟩

/-- C9: when `jc_strtoepoch` calls `mktime` it does so once, on the record that
holds the parsed fields and nothing else: `tm_year`, `tm_mon` and `tm_mday` as
parsed from the year, month and day digits, `tm_hour`, `tm_min` and `tm_sec` as
parsed from the time digits (zero for a date-only string), `tm_isdst` -1, and
`tm_wday` and `tm_yday` zero; and what it returns is the result of that call,
whatever it is (the failure value -1 included). -/
theorem C9_returns_mktime_of_record (shift : Bool) (mktime : Tm → Int) (s : List Int)
    (r : Run) (hz : NulFree s) (hr : jc_strtoepoch_run shift mktime (some s) = some r)
    (hc : r.calls ≠ []) :
    ∃ tm : Tm, r.calls = [tm] ∧ r.value = mktime tm ∧
      tm.tm_isdst = -1 ∧ tm.tm_wday = 0 ∧ tm.tm_yday = 0 ∧
      (mktime tm = -1 → r.value = -1) ∧
      tm.tm_year = (if s.getD 0 0 = 50 then 2000 else 1000) + 100 * digit s 1
        + 10 * digit s 2 + digit s 3 - 1900 ∧
      tm.tm_mon = 10 * digit s 5 + digit s 6 - 1 ∧
      tm.tm_mday = 10 * digit s 8 + digit s 9 ∧
      ((dateShape s = true ∧ tm.tm_hour = 0 ∧ tm.tm_min = 0 ∧ tm.tm_sec = 0) ∨
        (dateTimeShape s = true ∧
          tm.tm_hour = 10 * digit s 11 + digit s 12 ∧
          tm.tm_min = 10 * digit s 14 + digit s 15 ∧
          tm.tm_sec = 10 * digit s 17 + digit s 18)) := by
  obtain ⟨tm, hm⟩ := List.exists_mem_of_ne_nil r.calls hc
  obtain ⟨hb, hrun⟩ := ok_of_run shift mktime (some s) r tm hr hm
  subst hrun
  rcases shape_of_ok shift s tm hz hb with h | h
  · rw [tm_of_dateShape shift s h] at hb
    injection hb with hb
    subst hb
    exact ⟨_, rfl, rfl, rfl, rfl, rfl, fun e => e, rfl, rfl, rfl, Or.inl ⟨h, rfl, rfl, rfl⟩⟩
  · rw [tm_of_dateTimeShape shift s h] at hb
    injection hb with hb
    subst hb
    exact ⟨_, rfl, rfl, rfl, rfl, rfl, fun e => e, rfl, rfl, rfl, Or.inr ⟨h, rfl, rfl, rfl⟩⟩

/-- C9 at "2023-06-15 12:34:56", with a `mktime` that fails on every record, and
at the date-only string "1987-11-30", with a `mktime` that returns the day. -/
theorem C9_returns_mktime_of_record_witness :
    (NulFree (str "2023-06-15 12:34:56") ∧
      jc_strtoepoch_run false (fun _ => -1) (some (str "2023-06-15 12:34:56")) =
        some { value := -1, calls := [⟨56, 34, 12, 15, 5, 123, 0, 0, -1⟩] } ∧
      [(⟨56, 34, 12, 15, 5, 123, 0, 0, -1⟩ : Tm)] ≠ [] ∧
      ∃ tm : Tm, [(⟨56, 34, 12, 15, 5, 123, 0, 0, -1⟩ : Tm)] = [tm] ∧
        (-1 : Int) = (fun _ => -1) tm ∧
        tm.tm_isdst = -1 ∧ tm.tm_wday = 0 ∧ tm.tm_yday = 0 ∧
        ((fun _ => (-1 : Int)) tm = -1 → (-1 : Int) = -1) ∧
        tm.tm_year = (if (str "2023-06-15 12:34:56").getD 0 0 = 50 then 2000 else 1000)
          + 100 * digit (str "2023-06-15 12:34:56") 1
          + 10 * digit (str "2023-06-15 12:34:56") 2
          + digit (str "2023-06-15 12:34:56") 3 - 1900 ∧
        tm.tm_mon = 10 * digit (str "2023-06-15 12:34:56") 5
          + digit (str "2023-06-15 12:34:56") 6 - 1 ∧
        tm.tm_mday = 10 * digit (str "2023-06-15 12:34:56") 8
          + digit (str "2023-06-15 12:34:56") 9 ∧
        ((dateShape (str "2023-06-15 12:34:56") = true ∧
            tm.tm_hour = 0 ∧ tm.tm_min = 0 ∧ tm.tm_sec = 0) ∨
          (dateTimeShape (str "2023-06-15 12:34:56") = true ∧
            tm.tm_hour = 10 * digit (str "2023-06-15 12:34:56") 11
              + digit (str "2023-06-15 12:34:56") 12 ∧
            tm.tm_min = 10 * digit (str "2023-06-15 12:34:56") 14
              + digit (str "2023-06-15 12:34:56") 15 ∧
            tm.tm_sec = 10 * digit (str "2023-06-15 12:34:56") 17
              + digit (str "2023-06-15 12:34:56") 18))) ∧
    (NulFree (str "1987-11-30") ∧
      jc_strtoepoch_run false (fun t => t.tm_mday) (some (str "1987-11-30")) =
        some { value := 30, calls := [⟨0, 0, 0, 30, 10, 87, 0, 0, -1⟩] } ∧
      [(⟨0, 0, 0, 30, 10, 87, 0, 0, -1⟩ : Tm)] ≠ [] ∧
      ∃ tm : Tm, [(⟨0, 0, 0, 30, 10, 87, 0, 0, -1⟩ : Tm)] = [tm] ∧
        (30 : Int) = (fun t => t.tm_mday) tm ∧
        tm.tm_isdst = -1 ∧ tm.tm_wday = 0 ∧ tm.tm_yday = 0 ∧
        ((fun t => t.tm_mday) tm = -1 → (30 : Int) = -1) ∧
        tm.tm_year = (if (str "1987-11-30").getD 0 0 = 50 then 2000 else 1000)
          + 100 * digit (str "1987-11-30") 1 + 10 * digit (str "1987-11-30") 2
          + digit (str "1987-11-30") 3 - 1900 ∧
        tm.tm_mon = 10 * digit (str "1987-11-30") 5 + digit (str "1987-11-30") 6 - 1 ∧
        tm.tm_mday = 10 * digit (str "1987-11-30") 8 + digit (str "1987-11-30") 9 ∧
        ((dateShape (str "1987-11-30") = true ∧
            tm.tm_hour = 0 ∧ tm.tm_min = 0 ∧ tm.tm_sec = 0) ∨
          (dateTimeShape (str "1987-11-30") = true ∧
            tm.tm_hour = 10 * digit (str "1987-11-30") 11 + digit (str "1987-11-30") 12 ∧
            tm.tm_min = 10 * digit (str "1987-11-30") 14 + digit (str "1987-11-30") 15 ∧
            tm.tm_sec = 10 * digit (str "1987-11-30") 17 + digit (str "1987-11-30") 18))) :=
  ⟨⟨by decide, by decide, by decide,
      C9_returns_mktime_of_record false (fun _ => -1) (str "2023-06-15 12:34:56")
        { value := -1, calls := [⟨56, 34, 12, 15, 5, 123, 0, 0, -1⟩] }
        (by decide) (by decide) (by decide)⟩,
    ⟨by decide, by decide, by decide,
      C9_returns_mktime_of_record false (fun t => t.tm_mday) (str "1987-11-30")
        { value := 30, calls := [⟨0, 0, 0, 30, 10, 87, 0, 0, -1⟩] }
        (by decide) (by decide) (by decide)⟩⟩

/-- C10 fails for the month: "2023-00-01" is accepted and the record handed to
`mktime` has `tm_mon` -1. -/
theorem C10_month_negative_counterexample :
    NulFree (str "2023-00-01") ∧
    ∃ (r : Run) (tm : Tm),
      jc_strtoepoch_run false (fun _ => 0) (some (str "2023-00-01")) = some r ∧
      tm ∈ r.calls ∧ tm.tm_mon < 0 :=
  ⟨by decide, { value := 0, calls := [⟨0, 0, 0, 1, -1, 123, 0, 0, -1⟩] },
    ⟨0, 0, 0, 1, -1, 123, 0, 0, -1⟩, by decide, by decide, by decide⟩

/-- C10, amended: whenever `jc_strtoepoch` hands a record to `mktime`, the day,
hour, minute and second fields and the full year (`tm_year` before 1900 is taken
off) are at least 0, and the month field is at least -1; the month field is
negative exactly when both month digits are 0. -/
theorem C10_field_lower_bounds (shift : Bool) (mktime : Tm → Int) (s : List Int) (r : Run)
    (tm : Tm) (hz : NulFree s) (hr : jc_strtoepoch_run shift mktime (some s) = some r)
    (hm : tm ∈ r.calls) :
    0 ≤ tm.tm_mday ∧ 0 ≤ tm.tm_hour ∧ 0 ≤ tm.tm_min ∧ 0 ≤ tm.tm_sec ∧
    0 ≤ tm.tm_year + 1900 ∧ -1 ≤ tm.tm_mon ∧
    (tm.tm_mon < 0 ↔ digit s 5 = 0 ∧ digit s 6 = 0) := by
  obtain ⟨hb, -⟩ := ok_of_run shift mktime (some s) r tm hr hm
  rcases shape_of_ok shift s tm hz hb with h | h
  · rw [tm_of_dateShape shift s h] at hb
    injection hb with hb
    subst hb
    have b := digit_range_date s h
    have b1 := b 1 (by decide)
    have b2 := b 2 (by decide)
    have b3 := b 3 (by decide)
    have b5 := b 5 (by decide)
    have b6 := b 6 (by decide)
    have b8 := b 8 (by decide)
    have b9 := b 9 (by decide)
    simp only
    split_ifs <;> omega
  · rw [tm_of_dateTimeShape shift s h] at hb
    injection hb with hb
    subst hb
    have b := digit_range_datetime s h
    have b1 := b 1 (by decide)
    have b2 := b 2 (by decide)
    have b3 := b 3 (by decide)
    have b5 := b 5 (by decide)
    have b6 := b 6 (by decide)
    have b8 := b 8 (by decide)
    have b9 := b 9 (by decide)
    have b11 := b 11 (by decide)
    have b12 := b 12 (by decide)
    have b14 := b 14 (by decide)
    have b15 := b 15 (by decide)
    have b17 := b 17 (by decide)
    have b18 := b 18 (by decide)
    simp only
    split_ifs <;> omega

/-- C10, amended, at "2023-00-01", where the month field is -1. -/
theorem C10_field_lower_bounds_witness :
    NulFree (str "2023-00-01") ∧
    jc_strtoepoch_run false (fun _ => 0) (some (str "2023-00-01")) =
      some { value := 0, calls := [⟨0, 0, 0, 1, -1, 123, 0, 0, -1⟩] } ∧
    (⟨0, 0, 0, 1, -1, 123, 0, 0, -1⟩ : Tm) ∈ [(⟨0, 0, 0, 1, -1, 123, 0, 0, -1⟩ : Tm)] ∧
    (0 : Int) ≤ 1 ∧ (0 : Int) ≤ 0 ∧ (0 : Int) ≤ 0 ∧ (0 : Int) ≤ 0 ∧
    (0 : Int) ≤ 123 + 1900 ∧ (-1 : Int) ≤ -1 ∧
    ((-1 : Int) < 0 ↔ digit (str "2023-00-01") 5 = 0 ∧ digit (str "2023-00-01") 6 = 0) :=
  ⟨by decide, by decide, by decide,
    C10_field_lower_bounds false (fun _ => 0) (str "2023-00-01")
      { value := 0, calls := [⟨0, 0, 0, 1, -1, 123, 0, 0, -1⟩] }
      ⟨0, 0, 0, 1, -1, 123, 0, 0, -1⟩ (by decide) (by decide) (by decide)⟩

/-- C11: for every digit value `i` from 0 to 9 the shift forms give `i * 10` and
`i * 100`, so `MUL10` and `MUL100` agree in both builds and every digit pair
accumulates to the same field value; and for every input, `jc_strtoepoch` built
with `STRTOEPOCH_USE_SHIFT_MULTIPLY` ends and returns as the default build does:
the same error code, or the same record handed to `mktime`. -/
theorem C11_shift_build_equals_multiply_build :
    (∀ i : Int, 0 ≤ i → i ≤ 9 →
      shl i 3 + i + i = i * 10 ∧ shl i 6 + shl i 5 + shl i 2 = i * 100 ∧
      MUL10 true i = MUL10 false i ∧ MUL100 true i = MUL100 false i) ∧
    (∀ a b : Int, 0 ≤ a → a ≤ 9 → 0 ≤ b → b ≤ 9 →
      MUL10 true a + b = MUL10 false a + b) ∧
    (∀ mktime : Tm → Int,
      jc_strtoepoch_run true mktime none = jc_strtoepoch_run false mktime none) ∧
    (∀ (mktime : Tm → Int) (s : List Int), NulFree s →
      jc_strtoepoch_tm true (some s) = jc_strtoepoch_tm false (some s) ∧
      jc_strtoepoch_run true mktime (some s) = jc_strtoepoch_run false mktime (some s)) := by
  refine ⟨?_, ?_, ?_, ?_⟩
  · intro i h0 _
    have e10 := MUL10_eq true i h0
    have e100 := MUL100_eq true i h0
    have f10 := MUL10_eq false i h0
    have f100 := MUL100_eq false i h0
    refine ⟨?_, ?_, by rw [e10, f10], by rw [e100, f100]⟩
    · simp only [MUL10, if_true] at e10
      rw [e10]
      ring
    · simp only [MUL100, if_true] at e100
      rw [e100]
      ring
  · intro a b h0 _ _ _
    rw [MUL10_eq true a h0, MUL10_eq false a h0]
  · intro mktime
    rw [run_of_ret true mktime none JC_ENULL (tm_null true).1,
      run_of_ret false mktime none JC_ENULL (tm_null false).1]
  · intro mktime s hz
    have h := tm_shift_irrelevant s hz
    refine ⟨h, ?_⟩
    unfold jc_strtoepoch_run
    rw [h]

/-- C11 at the digit 7, the digit pair 5 9 and the inputs "2023-13-01 12:34:56"
and "2023-1-01". -/
theorem C11_shift_build_equals_multiply_build_witness :
    ((0 : Int) ≤ 7 ∧ (7 : Int) ≤ 9 ∧ shl 7 3 + 7 + 7 = 7 * 10 ∧
      shl 7 6 + shl 7 5 + shl 7 2 = 7 * 100) ∧
    MUL10 true 5 + 9 = MUL10 false 5 + 9 ∧
    (NulFree (str "2023-13-01 12:34:56") ∧
      jc_strtoepoch_run true (fun t => t.tm_sec) (some (str "2023-13-01 12:34:56")) =
        jc_strtoepoch_run false (fun t => t.tm_sec) (some (str "2023-13-01 12:34:56"))) ∧
    (NulFree (str "2023-1-01") ∧
      jc_strtoepoch_run true (fun t => t.tm_sec) (some (str "2023-1-01")) =
        jc_strtoepoch_run false (fun t => t.tm_sec) (some (str "2023-1-01"))) :=
  ⟨⟨by decide, by decide,
      (C11_shift_build_equals_multiply_build.1 7 (by decide) (by decide)).1,
      (C11_shift_build_equals_multiply_build.1 7 (by decide) (by decide)).2.1⟩,
    C11_shift_build_equals_multiply_build.2.1 5 9 (by decide) (by decide) (by decide)
      (by decide),
    ⟨by decide,
      (C11_shift_build_equals_multiply_build.2.2.2 (fun t => t.tm_sec)
        (str "2023-13-01 12:34:56") (by decide)).2⟩,
    ⟨by decide,
      (C11_shift_build_equals_multiply_build.2.2.2 (fun t => t.tm_sec)
        (str "2023-1-01") (by decide)).2⟩⟩

/-- C12: for every 64-bit tick count `t`, `jc_nttime_to_unixtime` returns 0 when
`t / 10000000 ≤ 11644473600` and `t / 10000000 - 11644473600` otherwise; every
`t` below `11644473600 * 10000000` gives 0; and the ticks 0,
`11644473600 * 10000000` and `(11644473600 + 1) * 10000000` give 0, 0 and 1. -/
theorem C12_nttime_to_unixtime (t : Nat) (ht : t < 2 ^ 64) :
    (t / 10000000 ≤ 11644473600 → jc_nttime_to_unixtime t = 0) ∧
    (11644473600 < t / 10000000 →
      jc_nttime_to_unixtime t = (t / 10000000 : Nat) - 11644473600) ∧
    (t < 11644473600 * 10000000 → jc_nttime_to_unixtime t = 0) ∧
    jc_nttime_to_unixtime 0 = 0 ∧
    jc_nttime_to_unixtime (11644473600 * 10000000) = 0 ∧
    jc_nttime_to_unixtime ((11644473600 + 1) * 10000000) = 1 := by
  refine ⟨nttime_clamped t ht, ?_, ?_, ?_, ?_, ?_⟩
  · intro h
    rw [nttime_unclamped t ht h]
    omega
  · intro h
    exact nttime_clamped t ht (by omega)
  · exact nttime_clamped 0 (by norm_num) (by norm_num)
  · exact nttime_clamped _ (by norm_num) (by norm_num)
  · rw [nttime_unclamped _ (by norm_num) (by norm_num)]
    norm_num

/-- C12 at the last tick of the NT range, `2 ^ 64 - 1`. -/
theorem C12_nttime_to_unixtime_witness :
    18446744073709551615 < 2 ^ 64 ∧
    (11644473600 < 18446744073709551615 / 10000000 →
      jc_nttime_to_unixtime 18446744073709551615 =
        (18446744073709551615 / 10000000 : Nat) - 11644473600) ∧
    jc_nttime_to_unixtime 18446744073709551615 = 1833029933770 :=
  have h := C12_nttime_to_unixtime 18446744073709551615 (by norm_num)
  ⟨by norm_num, h.2.1, by rw [h.2.1 (by norm_num)]; norm_num⟩

/-- C13: for every seconds value `s` with `(s + 11644473600) * 10000000 < 2 ^ 63`,
`jc_unixtime_to_nttime` returns exactly `(s + 11644473600) * 10000000`, which is
positive; and the function returns the clamp value 0 only for an `s` whose scaled
value does not fit 64 bits. -/
theorem C13_unixtime_to_nttime_exact :
    (∀ s : Nat, (s + 11644473600) * 10000000 < 2 ^ 63 →
      jc_unixtime_to_nttime s = ((s : Int) + 11644473600) * 10000000 ∧
      0 < jc_unixtime_to_nttime s) ∧
    (∀ s : Nat, s < 2 ^ 64 → jc_unixtime_to_nttime s = 0 →
      2 ^ 64 ≤ (s + 11644473600) * 10000000) := by
  constructor
  · intro s h
    rw [unixtime_exact s h]
    push_cast
    omega
  · intro s hs h0
    by_contra hlt
    rw [not_le] at hlt
    unfold jc_unixtime_to_nttime at h0
    have h1 : s % 2 ^ 64 = s := Nat.mod_eq_of_lt hs
    have h2 : (s + 11644473600) % 2 ^ 64 = s + 11644473600 := Nat.mod_eq_of_lt (by omega)
    have h3 : ((s + 11644473600) * 10000000) % 2 ^ 64 = (s + 11644473600) * 10000000 :=
      Nat.mod_eq_of_lt hlt
    simp only [h1, h2, h3] at h0
    rw [if_neg (by omega)] at h0
    unfold to_time_t at h0
    rw [h3] at h0
    split_ifs at h0 <;> omega

/-- C13 at `s = 1`, one second after 1970-01-01. -/
theorem C13_unixtime_to_nttime_exact_witness :
    (1 + 11644473600) * 10000000 < 2 ^ 63 ∧
    jc_unixtime_to_nttime 1 = ((1 : Nat) + 11644473600) * 10000000 ∧
    0 < jc_unixtime_to_nttime 1 ∧
    jc_unixtime_to_nttime 1 = 116444736010000000 :=
  have h := C13_unixtime_to_nttime_exact.1 1 (by norm_num)
  ⟨by norm_num, h.1, h.2, by rw [h.1]; norm_num⟩

/-- C14: for every seconds value `s ≥ 1` with
`(s + 11644473600) * 10000000 < 2 ^ 63`, converting to NT ticks and back gives
`s` again. -/
theorem C14_unix_nt_unix_round_trip (s : Nat) (h1 : 1 ≤ s)
    (h : (s + 11644473600) * 10000000 < 2 ^ 63) :
    jc_nttime_to_unixtime (of_time_t (jc_unixtime_to_nttime s)) = s := by
  rw [unixtime_exact s h, of_time_t_small _ h]
  rw [nttime_unclamped _ (by omega) (by omega)]
  omega

/-- C14 at `s = 1672531200`, the first second of 2023 in UTC. -/
theorem C14_unix_nt_unix_round_trip_witness :
    1 ≤ 1672531200 ∧ (1672531200 + 11644473600) * 10000000 < 2 ^ 63 ∧
    jc_nttime_to_unixtime (of_time_t (jc_unixtime_to_nttime 1672531200)) =
      (1672531200 : Nat) :=
  ⟨by norm_num, by norm_num,
    C14_unix_nt_unix_round_trip 1672531200 (by norm_num) (by norm_num)⟩

/-- C15 fails: the tick count `116444736010000001`, one tick after the first second
of 1970, is not clamped, and converting it to seconds and back gives
`116444736010000000`. -/
theorem C15_ticks_lost_counterexample :
    11644473600 < 116444736010000001 / 10000000 ∧
    jc_unixtime_to_nttime (of_time_t (jc_nttime_to_unixtime 116444736010000001)) =
      116444736010000000 ∧
    (116444736010000000 : Int) ≠ 116444736010000001 := by
  refine ⟨by norm_num, ?_, by norm_num⟩
  rw [nttime_unclamped _ (by norm_num) (by norm_num)]
  rw [of_time_t_small _ (by norm_num)]
  rw [unixtime_exact _ (by norm_num)]
  norm_num

/-- C15, amended: for every tick count `t` below `2 ^ 63` that is not clamped,
converting to seconds and back gives `t` rounded down to a whole second,
`t - t % 10000000`; that is `t` itself exactly when `t` is a multiple of
`10000000`. -/
theorem C15_nt_unix_nt_rounds_down (t : Nat) (ht : t < 2 ^ 63)
    (h : 11644473600 < t / 10000000) :
    jc_unixtime_to_nttime (of_time_t (jc_nttime_to_unixtime t)) = (t : Int) - (t % 10000000 : Nat) ∧
    (jc_unixtime_to_nttime (of_time_t (jc_nttime_to_unixtime t)) = (t : Int) ↔
      t % 10000000 = 0) := by
  have e : jc_unixtime_to_nttime (of_time_t (jc_nttime_to_unixtime t)) =
      (t : Int) - (t % 10000000 : Nat) := by
    rw [nttime_unclamped t (by omega) h]
    rw [of_time_t_small _ (by omega)]
    rw [unixtime_exact _ (by omega)]
    omega
  refine ⟨e, ?_⟩
  rw [e]
  omega

/-- C15, amended, at the tick count `116444736010000001` and at the whole second
`116444736010000000`. -/
theorem C15_nt_unix_nt_rounds_down_witness :
    (116444736010000001 < 2 ^ 63 ∧ 11644473600 < 116444736010000001 / 10000000 ∧
      jc_unixtime_to_nttime (of_time_t (jc_nttime_to_unixtime 116444736010000001)) =
        ((116444736010000001 : Nat) : Int) - (116444736010000001 % 10000000 : Nat)) ∧
    (116444736010000000 < 2 ^ 63 ∧ 11644473600 < 116444736010000000 / 10000000 ∧
      jc_unixtime_to_nttime (of_time_t (jc_nttime_to_unixtime 116444736010000000)) =
        ((116444736010000000 : Nat) : Int)) :=
  ⟨⟨by norm_num, by norm_num,
      (C15_nt_unix_nt_rounds_down 116444736010000001 (by norm_num) (by norm_num)).1⟩,
    ⟨by norm_num, by norm_num,
      (C15_nt_unix_nt_rounds_down 116444736010000000 (by norm_num) (by norm_num)).2.2
        (by norm_num)⟩⟩

/-- C16: with `mktime` a fixed-offset proleptic Gregorian normaliser,
`jc_strtoepoch("2023-01-02 00:00:00")` is one more than
`jc_strtoepoch("2023-01-01 23:59:59")`; and for all year, month and day digits, the
result for the day numbered one higher at 00:00:00 is one more than the result for
the day at 23:59:59 (for every day number whose successor has two digits, so in
particular for every day up to 27). -/
theorem C16_next_midnight_is_one_second_later (shift : Bool) (gmtoff : Int) :
    jc_strtoepoch shift (mktime_fixed gmtoff) (some (str "2023-01-01 23:59:59")) =
      some (1672617599 - gmtoff) ∧
    jc_strtoepoch shift (mktime_fixed gmtoff) (some (str "2023-01-02 00:00:00")) =
      some (1672617600 - gmtoff) ∧
    ∀ y1 y2 y3 y4 m1 m2 d1 d2 e1 e2 : Int,
      isdigit y1 = true → isdigit y2 = true → isdigit y3 = true → isdigit y4 = true →
      isdigit m1 = true → isdigit m2 = true → isdigit d1 = true → isdigit d2 = true →
      isdigit e1 = true → isdigit e2 = true →
      10 * (e1 - 48) + (e2 - 48) = 10 * (d1 - 48) + (d2 - 48) + 1 →
      ∃ a b : Int,
        jc_strtoepoch shift (mktime_fixed gmtoff)
          (some ([y1, y2, y3, y4, 45, m1, m2, 45, d1, d2] ++ str " 23:59:59")) = some a ∧
        jc_strtoepoch shift (mktime_fixed gmtoff)
          (some ([y1, y2, y3, y4, 45, m1, m2, 45, e1, e2] ++ str " 00:00:00")) = some b ∧
        b - a = 1 := by
  have k0 : isdigit 48 = true := by decide
  have k1 : isdigit 49 = true := by decide
  have k2 : isdigit 50 = true := by decide
  have k3 : isdigit 51 = true := by decide
  have k5 : isdigit 53 = true := by decide
  have k9 : isdigit 57 = true := by decide
  have n59 : (10 : Int) * (53 - 48) + (57 - 48) = 59 := by norm_num
  have n23 : (10 : Int) * (50 - 48) + (51 - 48) = 23 := by norm_num
  have n0 : (10 : Int) * (48 - 48) + (48 - 48) = 0 := by norm_num
  refine ⟨?_, ?_, ?_⟩
  · have e : str "2023-01-01 23:59:59" =
        [50, 48, 50, 51, 45, 48, 49, 45, 48, 49, 32, 50, 51, 58, 53, 57, 58, 53, 57] := by
      decide
    have t := tm_datetime shift 50 48 50 51 48 49 48 49 50 51 53 57 53 57
      k2 k0 k2 k3 k0 k1 k0 k1 k2 k3 k5 k9 k5 k9
    unfold jc_strtoepoch
    rw [e, run_of_ok shift (mktime_fixed gmtoff) _ _ t]
    simp only [Option.map_some', mktime_fixed, days_from_civil]
    norm_num
  · have e : str "2023-01-02 00:00:00" =
        [50, 48, 50, 51, 45, 48, 49, 45, 48, 50, 32, 48, 48, 58, 48, 48, 58, 48, 48] := by
      decide
    have t := tm_datetime shift 50 48 50 51 48 49 48 50 48 48 48 48 48 48
      k2 k0 k2 k3 k0 k1 k0 k2 k0 k0 k0 k0 k0 k0
    unfold jc_strtoepoch
    rw [e, run_of_ok shift (mktime_fixed gmtoff) _ _ t]
    simp only [Option.map_some', mktime_fixed, days_from_civil]
    norm_num
  · intro y1 y2 y3 y4 m1 m2 d1 d2 e1 e2 hy1 hy2 hy3 hy4 hm1 hm2 hd1 hd2 he1 he2 hnext
    have ta := tm_datetime shift y1 y2 y3 y4 m1 m2 d1 d2 50 51 53 57 53 57
      hy1 hy2 hy3 hy4 hm1 hm2 hd1 hd2 k2 k3 k5 k9 k5 k9
    have tb := tm_datetime shift y1 y2 y3 y4 m1 m2 e1 e2 48 48 48 48 48 48
      hy1 hy2 hy3 hy4 hm1 hm2 he1 he2 k0 k0 k0 k0 k0 k0
    rw [n59, n23] at ta
    rw [n0] at tb
    have ja := congrArg (Option.map Run.value) (run_of_ok shift (mktime_fixed gmtoff) _ _ ta)
    have jb := congrArg (Option.map Run.value) (run_of_ok shift (mktime_fixed gmtoff) _ _ tb)
    rw [str_last_second, str_midnight]
    exact ⟨_, _, ja, jb, mktime_fixed_next_day gmtoff _ _ _ _ hnext⟩

/-- C16 at 2023-02-27 and 2023-02-28, in UTC. -/
theorem C16_next_midnight_is_one_second_later_witness :
    10 * ((50 : Int) - 48) + (56 - 48) = 10 * (50 - 48) + (55 - 48) + 1 ∧
    ∃ a b : Int,
      jc_strtoepoch false (mktime_fixed 0)
        (some ([50, 48, 50, 51, 45, 48, 50, 45, 50, 55] ++ str " 23:59:59")) = some a ∧
      jc_strtoepoch false (mktime_fixed 0)
        (some ([50, 48, 50, 51, 45, 48, 50, 45, 50, 56] ++ str " 00:00:00")) = some b ∧
      b - a = 1 :=
  ⟨by decide,
    (C16_next_midnight_is_one_second_later false 0).2.2 50 48 50 51 48 50 50 55 50 56
      (by decide) (by decide) (by decide) (by decide) (by decide) (by decide) (by decide)
      (by decide) (by decide) (by decide) (by decide)⟩

/-- C17: `errcnt` is 6, and for every error number `i` with `0 ≤ i < errcnt`, the
values the `JC_TEST` program iterates over, `jc_get_errname(i)` and
`jc_get_errdesc(i)` return the name and the description of entry `i` of
`jc_error_list`, neither of them NULL, and `jc_print_error(i)` prints that
description and name and returns 0. -/
theorem C17_error_lookups_in_range (i : Int) (h0 : 0 ≤ i) (h1 : i < errcnt) :
    errcnt = 6 ∧
    ∃ (e : jc_error) (n d : String),
      jc_error_list[i.toNat]? = some e ∧ e.name = some n ∧ e.desc = some d ∧
      jc_get_errname i = some (some n) ∧
      jc_get_errdesc i = some (some d) ∧
      jc_print_error i = some { value := 0, stderr := [(some d, some n)] } := by
  have h6 : i < 6 := h1
  refine ⟨rfl, ?_⟩
  interval_cases i
  · exact ⟨_, _, _, rfl, rfl, rfl, rfl, rfl, rfl⟩
  · exact ⟨_, _, _, rfl, rfl, rfl, rfl, rfl, rfl⟩
  · exact ⟨_, _, _, rfl, rfl, rfl, rfl, rfl, rfl⟩
  · exact ⟨_, _, _, rfl, rfl, rfl, rfl, rfl, rfl⟩
  · exact ⟨_, _, _, rfl, rfl, rfl, rfl, rfl, rfl⟩
  · exact ⟨_, _, _, rfl, rfl, rfl, rfl, rfl, rfl⟩

/-- C17 at the error number 3. -/
theorem C17_error_lookups_in_range_witness :
    (0 : Int) ≤ 3 ∧ (3 : Int) < errcnt ∧
    jc_get_errname 3 = some (some "cdotdot") ∧
    ∃ (e : jc_error) (n d : String),
      jc_error_list[(3 : Int).toNat]? = some e ∧ e.name = some n ∧ e.desc = some d ∧
      jc_get_errname 3 = some (some n) ∧
      jc_get_errdesc 3 = some (some d) ∧
      jc_print_error 3 = some { value := 0, stderr := [(some d, some n)] } :=
  ⟨by decide, by decide, by decide,
    (C17_error_lookups_in_range 3 (by decide) (by decide)).2⟩

/-- C18: for every C string of length `n`, `jc_strtoepoch` never reads outside the
storage of the string (its characters and the terminator); its statements, run
with a reader that fails at every index above `min n 19`, end as the function
does, so every index read is at most `min n 19`; the call always returns; and
the way it ends depends only on the first 20 bytes of the storage: a string whose
storage begins with the same 20 bytes ends the same way. -/
theorem C18_reads_stay_inside (shift : Bool) (mktime : Tm → Int) (s : List Int)
    (hz : NulFree s) :
    jc_strtoepoch_tm shift (some s) ≠ Except.error Stop.oob ∧
    jc_strtoepoch_reading shift
        (fun k => if k ≤ min s.length 19 then deref s k else Except.error Stop.oob) =
      jc_strtoepoch_tm shift (some s) ∧
    (∃ r : Run, jc_strtoepoch_run shift mktime (some s) = some r) ∧
    (20 ≤ s.length →
      jc_strtoepoch_run shift mktime (some s) = some { value := JC_EDATETIME, calls := [] }) ∧
    ∀ s' : List Int, NulFree s' → (storage s').take 20 = (storage s).take 20 →
      jc_strtoepoch_tm shift (some s') = jc_strtoepoch_tm shift (some s) ∧
      jc_strtoepoch_run shift mktime (some s') = jc_strtoepoch_run shift mktime (some s) := by
  have hno := tm_never_oob shift s hz
  refine ⟨hno, tm_reading_bounded shift s, ?_, ?_, ?_⟩
  · cases hb : jc_strtoepoch_tm shift (some s) with
    | error e =>
      cases e with
      | oob => exact absurd hb hno
      | ret code => exact ⟨_, run_of_ret shift mktime (some s) code hb⟩
    | ok tm => exact ⟨_, run_of_ok shift mktime (some s) tm hb⟩
  · intro hl
    exact run_of_ret shift mktime (some s) JC_EDATETIME (tm_long_reject shift s hz hl)
  · intro s' hz' h
    have e := tm_of_first_bytes shift s' s hz' hz h
    refine ⟨e, ?_⟩
    unfold jc_strtoepoch_run
    rw [e]

/-- C18 at a string of 25 characters, compared with the string that has the
same first 20 characters and then goes on differently. -/
theorem C18_reads_stay_inside_witness :
    NulFree (str "2023-01-01 00:00:00 UTC=!") ∧
    NulFree (str "2023-01-01 00:00:00 and more") ∧
    (storage (str "2023-01-01 00:00:00 and more")).take 20 =
      (storage (str "2023-01-01 00:00:00 UTC=!")).take 20 ∧
    jc_strtoepoch_run false (fun _ => 0) (some (str "2023-01-01 00:00:00 and more")) =
      jc_strtoepoch_run false (fun _ => 0) (some (str "2023-01-01 00:00:00 UTC=!")) ∧
    jc_strtoepoch_run false (fun _ => 0) (some (str "2023-01-01 00:00:00 UTC=!")) =
      some { value := 11, calls := [] } :=
  have h := C18_reads_stay_inside false (fun _ => 0) (str "2023-01-01 00:00:00 UTC=!")
    (by decide)
  ⟨by decide, by decide, by decide,
    (h.2.2.2.2 (str "2023-01-01 00:00:00 and more") (by decide) (by decide)).2,
    h.2.2.2.1 (by decide)⟩

/-- C19: whenever `jc_strtoepoch` hands a record to `mktime`, its `tm_year` is
2000 when the first character is `'2'` and 1000 otherwise, plus a hundred times
the second year digit, ten times the third and the fourth, minus 1900; this is
the decimal value of the four digits minus 1900 exactly when the first digit is
1 or 2; and replacing a leading digit other than `'2'` by `'1'` changes nothing
in what the function does. -/
theorem C19_first_digit_selects_millennium (shift : Bool) (mktime : Tm → Int) :
    (∀ (s : List Int) (r : Run) (tm : Tm), NulFree s →
      jc_strtoepoch_run shift mktime (some s) = some r → tm ∈ r.calls →
      tm.tm_year = (if s.getD 0 0 = 50 then 2000 else 1000) + 100 * digit s 1
        + 10 * digit s 2 + digit s 3 - 1900 ∧
      (tm.tm_year = 1000 * digit s 0 + 100 * digit s 1 + 10 * digit s 2 + digit s 3 - 1900 ↔
        digit s 0 = 1 ∨ digit s 0 = 2)) ∧
    (∀ (c : Int) (rest : List Int), isdigit c = true → c ≠ 50 → NulFree rest →
      jc_strtoepoch_run shift mktime (some (c :: rest)) =
        jc_strtoepoch_run shift mktime (some (49 :: rest))) := by
  constructor
  · intro s r tm hz hr hm
    obtain ⟨hb, -⟩ := ok_of_run shift mktime (some s) r tm hr hm
    rcases shape_of_ok shift s tm hz hb with h | h
    · rw [tm_of_dateShape shift s h] at hb
      injection hb with hb
      subst hb
      refine ⟨rfl, ?_⟩
      obtain ⟨y1, y2, y3, y4, m1, m2, d1, d2, rfl, h1, -⟩ := dateShape_inv s h
      have b := digit_range y1 h1
      simp only [digit, List.getD_cons_zero]
      split_ifs <;> omega
    · rw [tm_of_dateTimeShape shift s h] at hb
      injection hb with hb
      subst hb
      refine ⟨rfl, ?_⟩
      obtain ⟨y1, y2, y3, y4, m1, m2, d1, d2, h1, h2, n1, n2, s1, s2, rfl, g1, -⟩ :=
        dateTimeShape_inv s h
      have b := digit_range y1 g1
      simp only [digit, List.getD_cons_zero]
      split_ifs <;> omega
  · intro c rest hc h2 hz
    unfold jc_strtoepoch_run
    rw [tm_head_as_one shift c rest hc h2 hz]

/-- C19 at "3999-06-15" and "0999-06-15", which are handed over as "1999-06-15"
is, with `tm_year` 99. -/
theorem C19_first_digit_selects_millennium_witness :
    (NulFree (str "3999-06-15") ∧
      jc_strtoepoch_run false (fun t => t.tm_year) (some (str "3999-06-15")) =
        some { value := 99, calls := [⟨0, 0, 0, 15, 5, 99, 0, 0, -1⟩] } ∧
      (⟨0, 0, 0, 15, 5, 99, 0, 0, -1⟩ : Tm) ∈ [(⟨0, 0, 0, 15, 5, 99, 0, 0, -1⟩ : Tm)] ∧
      (99 : Int) = (if (str "3999-06-15").getD 0 0 = 50 then 2000 else 1000)
        + 100 * digit (str "3999-06-15") 1 + 10 * digit (str "3999-06-15") 2
        + digit (str "3999-06-15") 3 - 1900) ∧
    (isdigit 51 = true ∧ (51 : Int) ≠ 50 ∧ NulFree (str "999-06-15") ∧
      jc_strtoepoch_run false (fun t => t.tm_year) (some (51 :: str "999-06-15")) =
        jc_strtoepoch_run false (fun t => t.tm_year) (some (49 :: str "999-06-15"))) ∧
    (isdigit 48 = true ∧ (48 : Int) ≠ 50 ∧
      jc_strtoepoch_run false (fun t => t.tm_year) (some (48 :: str "999-06-15")) =
        jc_strtoepoch_run false (fun t => t.tm_year) (some (49 :: str "999-06-15"))) :=
  have h := C19_first_digit_selects_millennium false (fun t => t.tm_year)
  ⟨⟨by decide, by decide, by decide,
      (h.1 (str "3999-06-15") { value := 99, calls := [⟨0, 0, 0, 15, 5, 99, 0, 0, -1⟩] }
        ⟨0, 0, 0, 15, 5, 99, 0, 0, -1⟩ (by decide) (by decide) (by decide)).1⟩,
    ⟨by decide, by decide, by decide,
      h.2 51 (str "999-06-15") (by decide) (by decide) (by decide)⟩,
    ⟨by decide, by decide,
      h.2 48 (str "999-06-15") (by decide) (by decide) (by decide)⟩⟩

/-- C20, evaluated: `jc_error_list` has 7 entries, with indices 0 to 6; for the
error number -7 the test `errnum > errcnt` does not fire, the number is negated,
and `jc_get_errname`, `jc_get_errdesc` and `jc_print_error` all read
`jc_error_list[7]`, outside the table.  For 7 the three functions answer NULL,
NULL and -5 without a read. -/
theorem C20_negative_errnum_reads_outside :
    jc_error_list.length = 7 ∧ jc_error_at 7 = none ∧
    jc_get_errname (-7) = none ∧ jc_get_errdesc (-7) = none ∧ jc_print_error (-7) = none ∧
    jc_get_errname 7 = some none ∧ jc_get_errdesc 7 = some none ∧
    jc_print_error 7 = some { value := -5, stderr := [] } := by
  decide

end Jodycode
